import Mathlib

/-!
# INSERT statement assembly of `ch/query_insert.go`

A shallow embedding of `InsertQuery` (builder calls, `AppendQuery`, `appendValues`,
`appendInsertTable`, `Exec`) together with the collaborators the file calls but does
not define (`chschema`, `baseQuery`, `whereQuery`, `DB`).

Conventions.
* A Go byte slice or string is modelled by its content, a `String`.
* A Go result pair `([]byte, error)` is a pair of options: `none` in the first
  component is the nil slice, `none` in the second is the nil error.
* Error values carry their origin: `GoError.errorsNew` is a value created by
  `errors.New` inside `query_insert.go`, `GoError.foreign` is a value created by a
  collaborator. Go compares such values by identity, so the two never coincide.
-/

namespace Ch

/-- Content of a Go byte slice or string. -/
abbrev Bytes := String

/-- A Go value of type `any`: a query argument or a model handed to `Model`. -/
inductive GoAny where
  | int (n : Int)
  | str (s : String)
  | row (typeName : String)
  deriving DecidableEq, Repr

/-- Go error values, tagged by where they were created. -/
inductive GoError where
  | errorsNew (msg : String)
  | foreign (msg : String)
  deriving DecidableEq, Repr

/-- A Go result pair `([]byte, error)`. -/
abbrev Ret := Option Bytes × Option GoError

/-- Modelled from the spec: `chschema.QueryWithArgs` is not in src. The SafeFragment of
§3 restricted to the two variants `query_insert.go` constructs: an identifier
(`chschema.UnsafeName`) and a parameterized expression (`chschema.SafeQuery`). -/
inductive QueryWithArgs where
  | name (ident : String)
  | query (template : String) (args : List GoAny)
  deriving DecidableEq, Repr

/-- Modelled from the spec: `chschema.QueryWithSep` is not in src. A filter fragment
"pre-wrapped with its join separator when added" (§3, WhereState). -/
structure QueryWithSep where
  toQueryWithArgs : QueryWithArgs
  Sep : String
  deriving DecidableEq, Repr

/-- Modelled from the spec: `chschema.UnsafeName` is not in src; it builds the
Identifier fragment. -/
def UnsafeName (ident : String) : QueryWithArgs := QueryWithArgs.name ident

/-- Modelled from the spec: `chschema.SafeQuery` is not in src; it builds the
Parameterized fragment. -/
def SafeQuery (query : String) (args : List GoAny) : QueryWithArgs :=
  QueryWithArgs.query query args

/-- Modelled from the spec: `chschema.SafeQueryWithSep` is not in src; the
Parameterized fragment together with its separator. -/
def SafeQueryWithSep (query : String) (args : List GoAny) (sep : String) : QueryWithSep :=
  { toQueryWithArgs := SafeQuery query args, Sep := sep }

/-- Modelled from the spec: `chschema.Formatter` is not in src. The stateless rendering
service of §4.1, taken as a parameter: what it emits for a query text with arguments
(`fmter.AppendQuery`, which has no error result in src), for an identifier and for a
parameterized fragment (text emitted so far and the failure message, if any). -/
structure Formatter where
  formatQuery : String → List GoAny → String
  formatName : String → String × Option String
  formatArgs : String → List GoAny → String × Option String

/-- Modelled from the spec: `Formatter.AppendQuery` is not in src. The call
`fmter.AppendQuery(b, query, args...)` appends to the buffer (§4.1). -/
def Formatter.AppendQuery (fmter : Formatter) (b : Bytes) (query : String)
    (args : List GoAny) : Bytes :=
  b ++ fmter.formatQuery query args

/-- What the formatter emits for a fragment, and its failure message if any: one
render operation per variant (§4.1, §9). -/
def QueryWithArgs.render (x : QueryWithArgs) (fmter : Formatter) : String × Option String :=
  match x with
  | QueryWithArgs.name ident => fmter.formatName ident
  | QueryWithArgs.query template args => fmter.formatArgs template args

/-- Modelled from the spec: `QueryWithArgs.AppendQuery` is not in src. §4.1:
"appends bytes to buffer and returns the extended buffer"; a failure is reported next
to whatever was appended. -/
def QueryWithArgs.AppendQuery (x : QueryWithArgs) (fmter : Formatter) (b : Bytes) : Ret :=
  (some (b ++ (x.render fmter).1), (x.render fmter).2.map GoError.foreign)

/-- Modelled from the spec: `chschema.Field` is not in src. The FieldSpec of §3: the
column name and its identifier rendering, supplied by reflection. -/
structure Field where
  CHName : String
  Column : String
  deriving DecidableEq, Repr

/-- Modelled from the spec: `chschema.Table` is not in src. Reflected metadata of a
model: `insertTableNameOf` and `fieldsOf` (§6). -/
structure Table where
  CHInsertName : String
  Fields : List Field
  deriving DecidableEq, Repr

/-- Modelled from the spec: `TableModel` is not in src. A bound model: the caller
value and its reflected table. -/
structure TableModel where
  value : GoAny
  Table : Table
  deriving DecidableEq, Repr

/-- Modelled from the spec: `result` is not in src. The `Result` object returned by the
connection collaborator (§6). -/
structure Result where
  affected : Nat
  deriving DecidableEq, Repr

/-- Modelled from the spec: `DB` is not in src. The collaborators of §6 as parameters:
the formatter, the fresh query buffer, model reflection (`newSingleModel`, and the
resolution of explicit columns against the reflected metadata), and the two entry
points of the connection. Collaborator failures are messages; they enter the engine
as `GoError.foreign`. -/
structure DB where
  fmter : Formatter
  makeQueryBytes : Bytes
  newSingleModel : GoAny → Except String TableModel
  resolveColumns : Option Table → List QueryWithArgs → List Field × Option String
  insert : TableModel → String → List Field → Option Result × Option String
  exec : String → Option Result × Option String

/-- Modelled from the spec: `baseQuery` is not in src. The BaseQueryState of §3, with
the field names `query_insert.go` uses (`db`, `err`, `tableModel`, `table`,
`modelTableName`, `tables`, `settings`); `modelTableName` is the optional
`modelTableOverride`, so `IsZero` is `none`. -/
structure baseQuery where
  db : DB
  err : Option GoError := none
  tableModel : Option TableModel := none
  table : Option Table := none
  modelTableName : Option QueryWithArgs := none
  tables : List QueryWithArgs := []
  columns : List QueryWithArgs := []
  excluded : List String := []
  settings : List QueryWithArgs := []

/-- Modelled from the spec: `whereQuery` is not in src. The WhereState of §3. -/
structure whereQuery where
  filters : List QueryWithSep := []

/-- The struct `InsertQuery`: an embedded `baseQuery` and the `where` field. -/
structure InsertQuery extends baseQuery where
  where_ : whereQuery := {}

/-- The constructor `NewInsertQuery`. -/
def NewInsertQuery (db : DB) : InsertQuery :=
  { db := db }

/-! ## Builder helpers of `baseQuery` and `whereQuery` -/

/-- Modelled from the spec: `setErr` is not in src. §3: `firstError` is set once,
"errors do not overwrite each other (first-write-wins)". -/
def baseQuery.setErr (q : baseQuery) (e : GoError) : baseQuery :=
  match q.err with
  | none => { q with err := some e }
  | some _ => q

/-- Modelled from the spec: `setTableModel` is not in src. Binds the model and its
reflected table; a reflection failure is recorded as the first error. -/
def baseQuery.setTableModel (q : baseQuery) (model : GoAny) : baseQuery :=
  match q.db.newSingleModel model with
  | Except.error msg => q.setErr (GoError.foreign msg)
  | Except.ok tm => { q with tableModel := some tm, table := some tm.Table }

/-- Modelled from the spec: `addTable` is not in src. `explicitTables` is an ordered,
append-only sequence (§3); appended the way `Setting` appends to `settings` in src. -/
def baseQuery.addTable (q : baseQuery) (table : QueryWithArgs) : baseQuery :=
  { q with tables := q.tables ++ [table] }

/-- Modelled from the spec: `addColumn` is not in src. `includedColumns` is an
ordered, append-only sequence (§3). -/
def baseQuery.addColumn (q : baseQuery) (column : QueryWithArgs) : baseQuery :=
  { q with columns := q.columns ++ [column] }

/-- Modelled from the spec: `excludeColumn` is not in src. Adds the names to
`excludedColumnNames` (§3). -/
def baseQuery.excludeColumn (q : baseQuery) (columns : List String) : baseQuery :=
  { q with excluded := q.excluded ++ columns }

/-- Modelled from the spec: `addFilter` is not in src. `filters` is an ordered
sequence of fragments (§3). -/
def whereQuery.addFilter (w : whereQuery) (f : QueryWithSep) : whereQuery :=
  { w with filters := w.filters ++ [f] }

/-! ## Builder calls of `InsertQuery` (lines 27-90) -/

/-- The method `Model` (lines 27-30). -/
def InsertQuery.Model (q : InsertQuery) (model : GoAny) : InsertQuery :=
  { q with tobaseQuery := q.tobaseQuery.setTableModel model }

/-- The method `Table` (lines 34-39): one `addTable` per name, in order. -/
def InsertQuery.Table (q : InsertQuery) (tables : List String) : InsertQuery :=
  tables.foldl
    (fun acc table => { acc with tobaseQuery := acc.tobaseQuery.addTable (UnsafeName table) }) q

/-- The method `TableExpr` (lines 41-44). -/
def InsertQuery.TableExpr (q : InsertQuery) (query : String) (args : List GoAny) :
    InsertQuery :=
  { q with tobaseQuery := q.tobaseQuery.addTable (SafeQuery query args) }

/-- The method `ModelTable` (lines 46-49): assigns the override, unconditionally. -/
def InsertQuery.ModelTable (q : InsertQuery) (table : String) : InsertQuery :=
  { q with modelTableName := some (UnsafeName table) }

/-- The method `ModelTableExpr` (lines 51-54): assigns the override, unconditionally. -/
def InsertQuery.ModelTableExpr (q : InsertQuery) (query : String) (args : List GoAny) :
    InsertQuery :=
  { q with modelTableName := some (SafeQuery query args) }

/-- The method `Setting` (lines 56-59): appends to `settings`, unconditionally. -/
def InsertQuery.Setting (q : InsertQuery) (query : String) (args : List GoAny) :
    InsertQuery :=
  { q with settings := q.settings ++ [SafeQuery query args] }

/-- The method `Column` (lines 63-68): one `addColumn` per name, in order. -/
def InsertQuery.Column (q : InsertQuery) (columns : List String) : InsertQuery :=
  columns.foldl
    (fun acc column =>
      { acc with tobaseQuery := acc.tobaseQuery.addColumn (UnsafeName column) }) q

/-- The method `ColumnExpr` (lines 70-73). -/
def InsertQuery.ColumnExpr (q : InsertQuery) (query : String) (args : List GoAny) :
    InsertQuery :=
  { q with tobaseQuery := q.tobaseQuery.addColumn (SafeQuery query args) }

/-- The method `ExcludeColumn` (lines 75-78). -/
def InsertQuery.ExcludeColumn (q : InsertQuery) (columns : List String) : InsertQuery :=
  { q with tobaseQuery := q.tobaseQuery.excludeColumn columns }

/-- The method `Where` (lines 82-85): a filter with the separator ` AND `. -/
def InsertQuery.Where (q : InsertQuery) (query : String) (args : List GoAny) :
    InsertQuery :=
  { q with where_ := q.where_.addFilter (SafeQueryWithSep query args " AND ") }

/-- The method `WhereOr` (lines 87-90): a filter with the separator ` OR `. -/
def InsertQuery.WhereOr (q : InsertQuery) (query : String) (args : List GoAny) :
    InsertQuery :=
  { q with where_ := q.where_.addFilter (SafeQueryWithSep query args " OR ") }

/-- The method `Operation` (lines 94-96). -/
def InsertQuery.Operation (_q : InsertQuery) : String := "INSERT"

/-- One builder call with its arguments. -/
inductive BuilderCall where
  | Model (model : GoAny)
  | Table (tables : List String)
  | TableExpr (query : String) (args : List GoAny)
  | ModelTable (table : String)
  | ModelTableExpr (query : String) (args : List GoAny)
  | Setting (query : String) (args : List GoAny)
  | Column (columns : List String)
  | ColumnExpr (query : String) (args : List GoAny)
  | ExcludeColumn (columns : List String)
  | Where (query : String) (args : List GoAny)
  | WhereOr (query : String) (args : List GoAny)
  deriving DecidableEq, Repr

/-- Performs one builder call on the query. -/
def InsertQuery.call (q : InsertQuery) : BuilderCall → InsertQuery
  | BuilderCall.Model model => q.Model model
  | BuilderCall.Table tables => q.Table tables
  | BuilderCall.TableExpr query args => q.TableExpr query args
  | BuilderCall.ModelTable table => q.ModelTable table
  | BuilderCall.ModelTableExpr query args => q.ModelTableExpr query args
  | BuilderCall.Setting query args => q.Setting query args
  | BuilderCall.Column columns => q.Column columns
  | BuilderCall.ColumnExpr query args => q.ColumnExpr query args
  | BuilderCall.ExcludeColumn columns => q.ExcludeColumn columns
  | BuilderCall.Where query args => q.Where query args
  | BuilderCall.WhereOr query args => q.WhereOr query args

/-- Performs a chain of builder calls, left to right. -/
def InsertQuery.calls (q : InsertQuery) (cs : List BuilderCall) : InsertQuery :=
  cs.foldl InsertQuery.call q

/-! ## Resolution and rendering helpers of `baseQuery` -/

/-- Modelled from the spec: `getFields` is not in src. §4.2, precedence for fields:
explicit included columns if any (resolved by the reflection collaborator, which may
fail, §7a); otherwise the reflected fields of the bound model minus the excluded
names; otherwise empty. -/
def baseQuery.getFields (q : baseQuery) : List Field × Option GoError :=
  match q.columns with
  | [] =>
    match q.table with
    | none => ([], none)
    | some t => (t.Fields.filter (fun f => !(q.excluded.contains f.CHName)), none)
  | _ :: _ =>
    ((q.db.resolveColumns q.table q.columns).1,
      (q.db.resolveColumns q.table q.columns).2.map GoError.foreign)

/-- Modelled from the spec: `modelHasTableName` is not in src. The insert target comes
from the override or the bound model (§4.2 (a), (b)) and not from `explicitTables`. -/
def baseQuery.modelHasTableName (q : baseQuery) : Bool :=
  q.modelTableName.isSome || q.table.isSome

/-- Modelled from the spec: `hasMultiTables` is not in src. §4.3 step 4: the statement
has "additional explicit tables beyond the implicit insert target". -/
def baseQuery.hasMultiTables (q : baseQuery) : Bool :=
  if q.modelHasTableName then decide (q.tables.length ≥ 1) else decide (q.tables.length ≥ 2)

/-- The explicit tables other than the insert target (§4.3 step 4). -/
def baseQuery.otherTables (q : baseQuery) : List QueryWithArgs :=
  if q.modelHasTableName then q.tables else q.tables.drop 1

/-- The first failure met when rendering the fragments in order, if any. -/
def firstFailure (fmter : Formatter) : List QueryWithArgs → Option GoError
  | [] => none
  | x :: xs =>
    match (x.render fmter).2 with
    | some msg => some (GoError.foreign msg)
    | none => firstFailure fmter xs

/-- The comma-joined renderings of the fragments. -/
def joinedText (fmter : Formatter) (xs : List QueryWithArgs) : String :=
  String.intercalate ", " (xs.map (fun x => (x.render fmter).1))

/-- The joined filter expression: each filter after the first is preceded by its own
separator. The flag tells whether a filter has been rendered before. -/
def whereText (fmter : Formatter) : Bool → List QueryWithSep → String
  | _, [] => ""
  | later, f :: fs =>
    (if later then f.Sep else "") ++ (f.toQueryWithArgs.render fmter).1
      ++ whereText fmter true fs

/-- Modelled from the spec: the loop shared by `appendOtherTables` and `appendSettings`,
neither in src. Comma-joined rendering of fragments (§4.3 steps 4 and 5); a failing
fragment ends it with the nil buffer, as every failure does in `query_insert.go`. -/
def appendQueries (fmter : Formatter) : Bytes → List QueryWithArgs → Ret
  | b, [] => (some b, none)
  | b, [x] =>
    match x.AppendQuery fmter b with
    | (_, some err) => (none, some err)
    | (b1, none) => (some (b1.getD ""), none)
  | b, x :: y :: rest =>
    match x.AppendQuery fmter b with
    | (_, some err) => (none, some err)
    | (b1, none) => appendQueries fmter (b1.getD "" ++ ", ") (y :: rest)

/-- Modelled from the spec: `appendOtherTables` is not in src. §4.3 step 4: "render all
tables other than the primary insert target, comma-joined". -/
def baseQuery.appendOtherTables (q : baseQuery) (fmter : Formatter) (b : Bytes) : Ret :=
  appendQueries fmter b q.otherTables

/-- Modelled from the spec: `appendSettings` is not in src. §4.3 step 5: "If any
settings fragments were registered, emit ` SETTINGS ` followed by the comma-joined
settings fragments". -/
def baseQuery.appendSettings (q : baseQuery) (fmter : Formatter) (b : Bytes) : Ret :=
  if q.settings.length > 0 then appendQueries fmter (b ++ " SETTINGS ") q.settings
  else (some b, none)

/-- Modelled from the spec: `appendWhere` is not in src. §4.1 JoinedFilters: the child
fragments with their separators interleaved; the empty list renders as nothing. The
flag tells whether a filter has been rendered before. -/
def appendWhereFrom (fmter : Formatter) : Bool → Bytes → List QueryWithSep → Ret
  | _, b, [] => (some b, none)
  | later, b, f :: fs =>
    match f.toQueryWithArgs.AppendQuery fmter (if later then b ++ f.Sep else b) with
    | (_, some err) => (none, some err)
    | (b1, none) => appendWhereFrom fmter true (b1.getD "") fs

/-- Modelled from the spec: `appendWhere` is not in src; see `appendWhereFrom`. -/
def appendWhere (fmter : Formatter) (b : Bytes) (filters : List QueryWithSep) : Ret :=
  appendWhereFrom fmter false b filters

/-- Modelled from the spec: `appendColumns` is not in src. §4.3 step 3: the identifier
rendering of each field, "comma-separated, no trailing comma"; the second argument
is a table qualifier, which `query_insert.go` always passes empty. -/
def appendColumns (b : Bytes) (table : String) (fields : List Field) : Bytes :=
  b ++ String.intercalate ", "
    (fields.map (fun f => if table = "" then f.Column else table ++ "." ++ f.Column))

/-- The projection of the SELECT shape: the column list, or `*` when there is none. -/
def selectList (fields : List Field) : String :=
  if fields.length > 0 then appendColumns "" "" fields else "*"

/-- The WHERE clause of the SELECT shape: nothing when no filter is registered. -/
def whereClause (fmter : Formatter) (filters : List QueryWithSep) : String :=
  if filters.length > 0 then " WHERE " ++ whereText fmter false filters else ""

/-- The settings clause: nothing when no setting is registered. -/
def settingsClause (fmter : Formatter) (settings : List QueryWithArgs) : String :=
  if settings.length > 0 then " SETTINGS " ++ joinedText fmter settings else ""

/-! ## `query_insert.go`, lines 100-210 -/

/-- The method `appendInsertTable` (lines 170-183). -/
def InsertQuery.appendInsertTable (q : InsertQuery) (fmter : Formatter) (b : Bytes) : Ret :=
  match q.modelTableName with
  | some m => m.AppendQuery fmter b
  | none =>
    match q.table with
    | some t => (some (fmter.AppendQuery b t.CHInsertName []), none)
    | none =>
      match q.tables with
      | first :: _ => first.AppendQuery fmter b
      | [] => (none, some (GoError.errorsNew "ch: query does not have a table"))

/-- The method `appendValues` (lines 134-168). -/
def InsertQuery.appendValues (q : InsertQuery) (fmter : Formatter) (b : Bytes) : Ret :=
  if !q.hasMultiTables then (some (b ++ " VALUES"), none)
  else
    match q.getFields with
    | (_, some err) => (none, some err)
    | (fields, none) =>
      match q.appendOtherTables fmter
          ((if fields.length > 0 then appendColumns (b ++ " SELECT ") "" fields
            else b ++ " SELECT " ++ "*") ++ " FROM ") with
      | (_, some err) => (none, some err)
      | (b1, none) =>
        if q.where_.filters.length > 0 then
          match appendWhere fmter (b1.getD "" ++ " WHERE ") q.where_.filters with
          | (_, some err) => (none, some err)
          | (b2, none) => (b2, none)
        else (b1, none)

/-- The method `AppendQuery` (lines 100-132). -/
def InsertQuery.AppendQuery (q : InsertQuery) (fmter : Formatter) (b : Bytes) : Ret :=
  match q.err with
  | some e => (none, some e)
  | none =>
    match q.appendInsertTable fmter (b ++ "INSERT INTO ") with
    | (_, some err) => (none, some err)
    | (b1, none) =>
      match q.getFields with
      | (_, some err) => (none, some err)
      | (fields, none) =>
        match q.appendValues fmter
            (if fields.length > 0 then appendColumns (b1.getD "" ++ " (") "" fields ++ ")"
             else b1.getD "") with
        | (_, some err) => (none, some err)
        | (b2, none) =>
          match q.appendSettings fmter (b2.getD "") with
          | (_, some err) => (none, some err)
          | (b3, none) => (b3, none)

/-- What a run of `Exec` does to its collaborators, in order. -/
inductive Event where
  | beforeQuery (query : String) (model : Option TableModel)
  | insert (model : TableModel) (query : String) (fields : List Field)
  | exec (query : String)
  | afterQuery (res : Option Result) (err : Option GoError)
  deriving DecidableEq, Repr

/-- The method `Exec` (lines 185-210): the returned pair and the trace of collaborator
calls (observer hooks and connection entry points). -/
def InsertQuery.Exec (q : InsertQuery) : (Option Result × Option GoError) × List Event :=
  match q.AppendQuery q.db.fmter q.db.makeQueryBytes with
  | (_, some err) => ((none, some err), [])
  | (queryBytes, none) =>
    match q.tableModel with
    | some tm =>
      match q.getFields with
      | (_, some err) =>
        ((none, some err), [Event.beforeQuery (queryBytes.getD "") q.tableModel])
      | (fields, none) =>
        (((q.db.insert tm (queryBytes.getD "") fields).1,
          (q.db.insert tm (queryBytes.getD "") fields).2.map GoError.foreign),
         [Event.beforeQuery (queryBytes.getD "") q.tableModel,
          Event.insert tm (queryBytes.getD "") fields,
          Event.afterQuery (q.db.insert tm (queryBytes.getD "") fields).1
            ((q.db.insert tm (queryBytes.getD "") fields).2.map GoError.foreign)])
    | none =>
      (((q.db.exec (queryBytes.getD "")).1,
        (q.db.exec (queryBytes.getD "")).2.map GoError.foreign),
       [Event.beforeQuery (queryBytes.getD "") q.tableModel,
        Event.exec (queryBytes.getD ""),
        Event.afterQuery (q.db.exec (queryBytes.getD "")).1
          ((q.db.exec (queryBytes.getD "")).2.map GoError.foreign)])

/-! ## Clauses of the rendered statement -/

/-- The rendering of the insert target, as `appendInsertTable` appends it. -/
def InsertQuery.targetText (q : InsertQuery) (fmter : Formatter) : String :=
  (q.appendInsertTable fmter "").1.getD ""

/-- The parenthesised column list after the insert target: nothing when no field is
resolved. -/
def columnClause (fields : List Field) : String :=
  if fields.length > 0 then " (" ++ appendColumns "" "" fields ++ ")" else ""

/-- The clause `appendValues` appends: ` VALUES` in the single-table shape, the SELECT
clause in the multi-table shape. -/
def InsertQuery.valuesClause (q : InsertQuery) (fmter : Formatter) : String :=
  if q.hasMultiTables then
    " SELECT " ++ selectList q.getFields.1 ++ " FROM " ++ joinedText fmter q.otherTables
      ++ whereClause fmter q.where_.filters
  else " VALUES"

/-! ## Rendering with the receiver threaded through

The render methods have pointer receivers, and so may the methods they call. Here
every call that is handed the receiver, a part of it or one of its fragments returns
what it leaves of it, and the methods of `query_insert.go` pass that on to the next
call. The callees that are not in src are parameters. -/

/-- The callees of the render methods that are not in src, as operations that may write
what they are handed: the fragment (`QueryWithArgs.AppendQuery`), the embedded
`baseQuery` (`getFields`, `hasMultiTables`, `appendOtherTables`, `appendSettings`), the
filter list (`appendWhere`). Each returns its result and what it leaves. -/
structure Receivers where
  render : QueryWithArgs → Formatter → Bytes → Ret × QueryWithArgs
  getFields : baseQuery → (List Field × Option GoError) × baseQuery
  hasMultiTables : baseQuery → Bool × baseQuery
  appendOtherTables : baseQuery → Formatter → Bytes → Ret × baseQuery
  appendSettings : baseQuery → Formatter → Bytes → Ret × baseQuery
  appendWhere : Formatter → Bytes → List QueryWithSep → Ret × List QueryWithSep

/-- The contract of the spec for the callees: rendering "never mutates fragment"
(§4.1), resolution works on "unchanged state" (§4.2), rendering is "a pure
computation over in-memory data" (§5). -/
def Receivers.ReadOnly (H : Receivers) : Prop :=
  (∀ x fmter b, (H.render x fmter b).2 = x) ∧
  (∀ q, (H.getFields q).2 = q) ∧
  (∀ q, (H.hasMultiTables q).2 = q) ∧
  (∀ q fmter b, (H.appendOtherTables q fmter b).2 = q) ∧
  (∀ q fmter b, (H.appendSettings q fmter b).2 = q) ∧
  (∀ fmter b fs, (H.appendWhere fmter b fs).2 = fs)

/-- The callees as modelled from the spec above: each returns the result of the modelled
function and leaves what it was handed. -/
def pureReceivers : Receivers where
  render := fun x fmter b => (x.AppendQuery fmter b, x)
  getFields := fun q => (q.getFields, q)
  hasMultiTables := fun q => (q.hasMultiTables, q)
  appendOtherTables := fun q fmter b => (q.appendOtherTables fmter b, q)
  appendSettings := fun q fmter b => (q.appendSettings fmter b, q)
  appendWhere := fun fmter b fs => (appendWhere fmter b fs, fs)

/-- Callees of which one writes: `getFields` records an error on the receiver when none
is recorded yet. -/
def writingReceivers : Receivers :=
  { pureReceivers with
    getFields := fun q => (q.getFields, q.setErr (GoError.foreign "fields resolved")) }

/-- The method `appendInsertTable` (lines 170-183) with the receiver threaded: the
fragment it renders is put back as the render call left it. -/
def InsertQuery.appendInsertTableS (q : InsertQuery) (H : Receivers) (fmter : Formatter)
    (b : Bytes) : Ret × InsertQuery :=
  match q.modelTableName with
  | some m =>
    ((H.render m fmter b).1, { q with modelTableName := some (H.render m fmter b).2 })
  | none =>
    match q.table with
    | some t => ((some (fmter.AppendQuery b t.CHInsertName []), none), q)
    | none =>
      match q.tables with
      | first :: rest =>
        ((H.render first fmter b).1, { q with tables := (H.render first fmter b).2 :: rest })
      | [] => ((none, some (GoError.errorsNew "ch: query does not have a table")), q)

/-- The method `appendValues` (lines 134-168) with the receiver threaded through
`hasMultiTables`, `getFields`, `appendOtherTables` and `appendWhere`, in that order. -/
def InsertQuery.appendValuesS (q : InsertQuery) (H : Receivers) (fmter : Formatter)
    (b : Bytes) : Ret × InsertQuery :=
  match H.hasMultiTables q.tobaseQuery with
  | (false, base1) => ((some (b ++ " VALUES"), none), { q with tobaseQuery := base1 })
  | (true, base1) =>
    match H.getFields base1 with
    | ((_, some err), base2) => ((none, some err), { q with tobaseQuery := base2 })
    | ((fields, none), base2) =>
      match H.appendOtherTables base2 fmter
          ((if fields.length > 0 then appendColumns (b ++ " SELECT ") "" fields
            else b ++ " SELECT " ++ "*") ++ " FROM ") with
      | ((_, some err), base3) => ((none, some err), { q with tobaseQuery := base3 })
      | ((b1, none), base3) =>
        if q.where_.filters.length > 0 then
          match H.appendWhere fmter (b1.getD "" ++ " WHERE ") q.where_.filters with
          | ((_, some err), fs) =>
            ((none, some err), { tobaseQuery := base3, where_ := { filters := fs } })
          | ((b2, none), fs) =>
            ((b2, none), { tobaseQuery := base3, where_ := { filters := fs } })
        else ((b1, none), { q with tobaseQuery := base3 })

/-- The method `AppendQuery` (lines 100-132) with the receiver threaded through
`appendInsertTable`, `getFields`, `appendValues` and `appendSettings`, in that order. -/
def InsertQuery.AppendQueryS (q : InsertQuery) (H : Receivers) (fmter : Formatter)
    (b : Bytes) : Ret × InsertQuery :=
  match q.err with
  | some e => ((none, some e), q)
  | none =>
    match q.appendInsertTableS H fmter (b ++ "INSERT INTO ") with
    | ((_, some err), q1) => ((none, some err), q1)
    | ((b1, none), q1) =>
      match H.getFields q1.tobaseQuery with
      | ((_, some err), base2) => ((none, some err), { q1 with tobaseQuery := base2 })
      | ((fields, none), base2) =>
        match ({ q1 with tobaseQuery := base2 } : InsertQuery).appendValuesS H fmter
            (if fields.length > 0 then appendColumns (b1.getD "" ++ " (") "" fields ++ ")"
             else b1.getD "") with
        | ((_, some err), q3) => ((none, some err), q3)
        | ((b2, none), q3) =>
          match H.appendSettings q3.tobaseQuery fmter (b2.getD "") with
          | ((_, some err), base4) => ((none, some err), { q3 with tobaseQuery := base4 })
          | ((b3, none), base4) => ((b3, none), { q3 with tobaseQuery := base4 })

/-! ## Reading a trace of `Exec` -/

/-- Whether the event is the before hook of the observer. -/
def Event.isBefore : Event → Bool
  | Event.beforeQuery _ _ => true
  | _ => false

/-- Whether the event is the after hook of the observer. -/
def Event.isAfter : Event → Bool
  | Event.afterQuery _ _ => true
  | _ => false

/-- Whether the event is a call of the model-aware insert entry point. -/
def Event.isInsert : Event → Bool
  | Event.insert _ _ _ => true
  | _ => false

/-- Whether the event is a call of the generic exec entry point. -/
def Event.isExec : Event → Bool
  | Event.exec _ => true
  | _ => false

/-- The collaborator pair as Go values: the result as it is, the failure as the error
value it is. -/
def goPair (r : Option Result × Option String) : Option Result × Option GoError :=
  (r.1, r.2.map GoError.foreign)

/-! ## A concrete formatter and database, for evaluation -/

/-- Literal form of an argument. -/
def GoAny.literal : GoAny → String
  | GoAny.int n => toString n
  | GoAny.str s => "'" ++ s ++ "'"
  | GoAny.row typeName => typeName

/-- Left-to-right substitution of `?` by the literal form of the next argument; a
missing or a left-over argument is a failure. -/
def substitute : List Char → List GoAny → String × Option String
  | [], [] => ("", none)
  | [], _ :: _ => ("", some "too many arguments")
  | c :: cs, args =>
    if c = '?' then
      match args with
      | [] => ("", some "too few arguments")
      | a :: rest => (a.literal ++ (substitute cs rest).1, (substitute cs rest).2)
    else (String.singleton c ++ (substitute cs args).1, (substitute cs args).2)

/-- A formatter that leaves identifiers as they are and substitutes placeholders. -/
def plainFormatter : Formatter where
  formatQuery := fun query args => (substitute query.toList args).1
  formatName := fun ident => (ident, none)
  formatArgs := fun template args => substitute template.toList args

/-- A database whose reflection knows the row types `Row` (table `rows`, columns `id`
and `name`) and `Bare` (table `bare`, no columns) and whose connection reports one
affected row. -/
def plainDB : DB where
  fmter := plainFormatter
  makeQueryBytes := ""
  newSingleModel := fun v =>
    match v with
    | GoAny.row "Row" =>
      Except.ok { value := v, Table := { CHInsertName := "rows",
                                         Fields := [⟨"id", "id"⟩, ⟨"name", "name"⟩] } }
    | GoAny.row "Bare" =>
      Except.ok { value := v, Table := { CHInsertName := "bare", Fields := [] } }
    | _ => Except.error "ch: unsupported model"
  resolveColumns := fun _ cols =>
    (cols.map (fun c => match c with
      | QueryWithArgs.name n => ⟨n, n⟩
      | QueryWithArgs.query t _ => ⟨t, t⟩), none)
  insert := fun _ _ _ => (some ⟨1⟩, none)
  exec := fun _ => (some ⟨1⟩, none)

/-- The plain database with a connection that refuses every statement. -/
def failingDB : DB :=
  { plainDB with
    insert := fun _ _ _ => (none, some "connection refused")
    exec := fun _ => (none, some "connection refused") }

/-! ## Theorems -/

/-- The accumulator of `String.intercalate` is a prefix of its result. -/
theorem intercalate_go (s : String) (xs : List String) (acc : String) :
    String.intercalate.go acc s xs = acc ++ String.intercalate.go "" s xs := by
  induction xs generalizing acc with
  | nil => simp [String.intercalate.go]
  | cons x xs ih =>
    simp only [String.intercalate.go]
    rw [ih (acc ++ s ++ x), ih ("" ++ s ++ x)]
    simp [String.append_assoc]

/-- Unfolding `String.intercalate` on a list of at least two strings. -/
theorem intercalate_cons_cons (s a c : String) (rest : List String) :
    String.intercalate s (a :: c :: rest) = a ++ s ++ String.intercalate s (c :: rest) := by
  simp only [String.intercalate, String.intercalate.go]
  rw [intercalate_go s rest (a ++ s ++ c), intercalate_go s rest c]
  simp [String.append_assoc]

/-- Closed form of `appendQueries`: the first failure, or the buffer followed by the
comma-joined renderings. -/
theorem appendQueries_eq (fmter : Formatter) (xs : List QueryWithArgs) (b : Bytes) :
    appendQueries fmter b xs =
      match firstFailure fmter xs with
      | some e => (none, some e)
      | none => (some (b ++ joinedText fmter xs), none) := by
  induction xs generalizing b with
  | nil => simp [appendQueries, firstFailure, joinedText, String.intercalate]
  | cons x xs ih =>
    cases xs with
    | nil =>
      simp only [appendQueries, firstFailure, joinedText, QueryWithArgs.AppendQuery]
      cases h : (x.render fmter).2 <;>
        simp [String.intercalate, String.intercalate.go]
    | cons y rest =>
      simp only [appendQueries, QueryWithArgs.AppendQuery]
      rw [firstFailure]
      cases h : (x.render fmter).2 with
      | some msg => simp
      | none =>
        simp only [Option.map_none', Option.getD_some]
        rw [ih]
        cases firstFailure fmter (y :: rest) with
        | some e => rfl
        | none =>
          simp only [joinedText, List.map_cons, intercalate_cons_cons, String.append_assoc]

/-- Closed form of `appendWhereFrom`: the first failure, or the buffer followed by the
joined filter expression. -/
theorem appendWhereFrom_eq (fmter : Formatter) (fs : List QueryWithSep) (later : Bool)
    (b : Bytes) :
    appendWhereFrom fmter later b fs =
      match firstFailure fmter (fs.map QueryWithSep.toQueryWithArgs) with
      | some e => (none, some e)
      | none => (some (b ++ whereText fmter later fs), none) := by
  induction fs generalizing later b with
  | nil => simp [appendWhereFrom, firstFailure, whereText]
  | cons f fs ih =>
    simp only [appendWhereFrom, QueryWithArgs.AppendQuery, List.map_cons]
    rw [firstFailure]
    cases h : (f.toQueryWithArgs.render fmter).2 with
    | some msg => simp
    | none =>
      simp only [Option.map_none', Option.getD_some]
      rw [ih]
      cases firstFailure fmter (fs.map QueryWithSep.toQueryWithArgs) with
      | some e => rfl
      | none =>
        cases later <;> simp [whereText, String.append_assoc]

/-- The method `appendInsertTable` only appends: its result on a buffer is its result on
the empty buffer behind that buffer. -/
theorem appendInsertTable_shift (q : InsertQuery) (fmter : Formatter) (b : Bytes) :
    q.appendInsertTable fmter b =
      ((q.appendInsertTable fmter "").1.map (fun t => b ++ t),
       (q.appendInsertTable fmter "").2) := by
  unfold InsertQuery.appendInsertTable
  cases q.modelTableName with
  | some m => simp [QueryWithArgs.AppendQuery]
  | none =>
    cases q.table with
    | some t => simp [Formatter.AppendQuery]
    | none =>
      cases q.tables with
      | nil => simp
      | cons first rest => simp [QueryWithArgs.AppendQuery]

/-- A successful `appendInsertTable` on the empty buffer gives the text it appends to
any buffer. -/
theorem appendInsertTable_of_empty (q : InsertQuery) (fmter : Formatter) (t : Bytes)
    (ht : q.appendInsertTable fmter "" = (some t, none)) (b : Bytes) :
    q.appendInsertTable fmter b = (some (b ++ t), none) := by
  rw [appendInsertTable_shift, ht]
  rfl

/-- The method `appendSettings` emits nothing when no setting is registered. -/
theorem appendSettings_nil (q : InsertQuery) (fmter : Formatter) (b : Bytes)
    (hset : q.settings = []) : q.appendSettings fmter b = (some b, none) := by
  unfold baseQuery.appendSettings
  rw [hset]
  rfl

/-- Closed form of `appendSettings`: the first failing setting, or the buffer followed
by the settings clause. -/
theorem appendSettings_eq (q : InsertQuery) (fmter : Formatter) (b : Bytes) :
    q.appendSettings fmter b =
      match firstFailure fmter q.settings with
      | some e => (none, some e)
      | none => (some (b ++ settingsClause fmter q.settings), none) := by
  unfold baseQuery.appendSettings settingsClause
  cases hs : q.settings with
  | nil => simp [firstFailure]
  | cons x xs =>
    simp only [List.length_cons, gt_iff_lt, Nat.zero_lt_succ, ↓reduceIte, appendQueries_eq]
    cases firstFailure fmter (x :: xs) with
    | some e => rfl
    | none => simp [String.append_assoc]

/-- The column list appended to a buffer is the buffer followed by the column list. -/
theorem appendColumns_eq (b : Bytes) (fields : List Field) :
    appendColumns b "" fields = b ++ appendColumns "" "" fields := by
  simp [appendColumns]

/-- Closed form of `appendValues`: ` VALUES` in the single-table shape; in the
multi-table shape the first failure, or the SELECT clause. -/
theorem appendValues_eq (q : InsertQuery) (fmter : Formatter) (b : Bytes) :
    q.appendValues fmter b =
      if q.hasMultiTables = false then (some (b ++ " VALUES"), none)
      else
        match q.getFields.2 with
        | some e => (none, some e)
        | none =>
          match firstFailure fmter q.otherTables with
          | some e => (none, some e)
          | none =>
            match firstFailure fmter (q.where_.filters.map QueryWithSep.toQueryWithArgs) with
            | some e => (none, some e)
            | none =>
              (some (b ++ " SELECT " ++ selectList q.getFields.1 ++ " FROM "
                ++ joinedText fmter q.otherTables
                ++ whereClause fmter q.where_.filters), none) := by
  unfold InsertQuery.appendValues
  cases hm : q.hasMultiTables with
  | false => simp
  | true =>
    simp only [Bool.not_true, Bool.false_eq_true, ↓reduceIte]
    rcases hf : q.getFields with ⟨fields, ferr⟩
    cases ferr with
    | some e => rfl
    | none =>
      simp only [baseQuery.appendOtherTables, appendQueries_eq]
      cases firstFailure fmter q.otherTables with
      | some e => rfl
      | none =>
        simp only [Option.getD_some, appendWhere, appendWhereFrom_eq]
        cases hfs : q.where_.filters with
        | nil =>
          by_cases hl : fields.length > 0 <;>
            simp [firstFailure, whereClause, selectList, hl, appendColumns,
              String.append_assoc]
        | cons f fs =>
          simp only [List.length_cons, gt_iff_lt, Nat.zero_lt_succ, ↓reduceIte]
          cases firstFailure fmter ((f :: fs).map QueryWithSep.toQueryWithArgs) with
          | some e => rfl
          | none =>
            by_cases hl : fields.length > 0 <;>
              simp [whereClause, selectList, hl, appendColumns, String.append_assoc]

/-- A successful `appendInsertTable` returns a buffer. -/
theorem appendInsertTable_some (q : InsertQuery) (fmter : Formatter) (b : Bytes)
    (h : (q.appendInsertTable fmter b).2 = none) :
    ∃ t, q.appendInsertTable fmter b = (some t, none) := by
  unfold InsertQuery.appendInsertTable at h ⊢
  cases hm : q.modelTableName with
  | some m =>
    rw [hm] at h
    simp only [QueryWithArgs.AppendQuery] at h ⊢
    exact ⟨_, by rw [h]⟩
  | none =>
    rw [hm] at h
    cases ht : q.table with
    | some t => exact ⟨_, rfl⟩
    | none =>
      rw [ht] at h
      cases hts : q.tables with
      | nil => rw [hts] at h; simp at h
      | cons first rest =>
        rw [hts] at h
        simp only [QueryWithArgs.AppendQuery] at h ⊢
        exact ⟨_, by rw [h]⟩

/-- A successful `appendValues` returns a buffer. -/
theorem appendValues_some (q : InsertQuery) (fmter : Formatter) (b : Bytes)
    (h : (q.appendValues fmter b).2 = none) :
    ∃ v, q.appendValues fmter b = (some v, none) := by
  rw [appendValues_eq] at h ⊢
  split at h
  · rename_i hm
    exact ⟨_, by rw [if_pos hm]⟩
  · rename_i hm
    rw [if_neg hm]
    split at h
    · simp at h
    · split at h
      · simp at h
      · split at h
        · simp at h
        · exact ⟨_, rfl⟩

/-- What a successful `AppendQuery` went through: no recorded error, a resolved insert
target, resolved fields, the VALUES or SELECT clause, settings that all render; the
result is the buffer after that clause followed by the settings clause. -/
theorem AppendQuery_success (q : InsertQuery) (fmter : Formatter) (b : Bytes)
    (h : (q.AppendQuery fmter b).2 = none) :
    ∃ t base, q.err = none ∧
      q.appendInsertTable fmter (b ++ "INSERT INTO ") = (some t, none) ∧
      q.getFields.2 = none ∧
      q.appendValues fmter
        (if q.getFields.1.length > 0 then appendColumns (t ++ " (") "" q.getFields.1 ++ ")"
         else t) = (some base, none) ∧
      firstFailure fmter q.settings = none ∧
      q.AppendQuery fmter b = (some (base ++ settingsClause fmter q.settings), none) := by
  unfold InsertQuery.AppendQuery at h ⊢
  cases herr : q.err with
  | some e => rw [herr] at h; simp at h
  | none =>
    rw [herr] at h
    simp only at h ⊢
    rcases hT : q.appendInsertTable fmter (b ++ "INSERT INTO ") with ⟨b1, e1⟩
    rw [hT] at h
    cases e1 with
    | some e => simp at h
    | none =>
      obtain ⟨t, ht⟩ := appendInsertTable_some q fmter _ (by rw [hT])
      rw [hT] at ht
      simp only [Prod.mk.injEq, and_true] at ht
      subst ht
      simp only [Option.getD_some] at h ⊢
      rcases hF : q.getFields with ⟨fields, e2⟩
      rw [hF] at h
      cases e2 with
      | some e => simp at h
      | none =>
        simp only at h ⊢
        rcases hV : q.appendValues fmter
            (if fields.length > 0 then appendColumns (t ++ " (") "" fields ++ ")" else t)
          with ⟨b2, e3⟩
        rw [hV] at h
        cases e3 with
        | some e => simp at h
        | none =>
          obtain ⟨v, hv⟩ := appendValues_some q fmter _ (by rw [hV])
          rw [hV] at hv
          simp only [Prod.mk.injEq, and_true] at hv
          subst hv
          simp only [Option.getD_some, appendSettings_eq] at h ⊢
          cases hS : firstFailure fmter q.settings with
          | some e => rw [hS] at h; simp at h
          | none =>
            refine ⟨t, v, ?_, ?_, ?_, ?_, ?_, ?_⟩ <;> simp [hV, hS]

/-- The converse of `AppendQuery_success`: when every step succeeds, the result is the
buffer after the VALUES or SELECT clause followed by the settings clause. -/
theorem AppendQuery_of_steps (q : InsertQuery) (fmter : Formatter) (b t base : Bytes)
    (herr : q.err = none)
    (hT : q.appendInsertTable fmter (b ++ "INSERT INTO ") = (some t, none))
    (hF : q.getFields.2 = none)
    (hV : q.appendValues fmter
        (if q.getFields.1.length > 0 then appendColumns (t ++ " (") "" q.getFields.1 ++ ")"
         else t) = (some base, none))
    (hS : firstFailure fmter q.settings = none) :
    q.AppendQuery fmter b = (some (base ++ settingsClause fmter q.settings), none) := by
  unfold InsertQuery.AppendQuery
  rw [herr]
  simp only [hT, Option.getD_some]
  rcases hG : q.getFields with ⟨fields, e2⟩
  rw [hG] at hF hV
  simp only at hF hV
  subst hF
  simp only [hV, Option.getD_some, appendSettings_eq, hS]

/-- A failing `AppendQuery` returns the nil buffer. -/
theorem AppendQuery_failure (q : InsertQuery) (fmter : Formatter) (b : Bytes) (e : GoError)
    (h : (q.AppendQuery fmter b).2 = some e) : q.AppendQuery fmter b = (none, some e) := by
  unfold InsertQuery.AppendQuery at h ⊢
  repeat' split at h
  all_goals simp_all

/-- In the multi-table shape a successful `appendValues` met no failing table and no
failing filter. -/
theorem appendValues_failures (q : InsertQuery) (fmter : Formatter) (b : Bytes)
    (hm : q.hasMultiTables = true) (h : (q.appendValues fmter b).2 = none) :
    firstFailure fmter q.otherTables = none ∧
    firstFailure fmter (q.where_.filters.map QueryWithSep.toQueryWithArgs) = none := by
  rw [appendValues_eq, hm] at h
  simp only [Bool.true_eq_false, ↓reduceIte] at h
  split at h
  · simp at h
  · split at h
    · simp at h
    · split at h
      · simp at h
      · rename_i h1 _ h2
        exact ⟨h1, h2⟩

/-- A recorded error survives `setErr`. -/
theorem setErr_err_of_some (q : baseQuery) (e e1 : GoError) (h : q.err = some e) :
    (q.setErr e1).err = some e := by
  unfold baseQuery.setErr
  rw [h]
  exact h

/-- Adding tables one by one leaves the recorded error alone. -/
theorem Table_err (tables : List String) (q : InsertQuery) :
    (q.Table tables).err = q.err := by
  unfold InsertQuery.Table
  induction tables generalizing q with
  | nil => rfl
  | cons t ts ih =>
    rw [List.foldl_cons, ih]
    rfl

/-- Adding columns one by one leaves the recorded error alone. -/
theorem Column_err (columns : List String) (q : InsertQuery) :
    (q.Column columns).err = q.err := by
  unfold InsertQuery.Column
  induction columns generalizing q with
  | nil => rfl
  | cons t ts ih =>
    rw [List.foldl_cons, ih]
    rfl

/-- No builder call replaces an error that is already recorded. -/
theorem call_err_of_some (q : InsertQuery) (c : BuilderCall) (e : GoError)
    (h : q.err = some e) : (q.call c).err = some e := by
  cases c with
  | Model model =>
    show (q.tobaseQuery.setTableModel model).err = some e
    unfold baseQuery.setTableModel
    cases q.db.newSingleModel model with
    | error msg => exact setErr_err_of_some _ _ _ h
    | ok tm => exact h
  | Table tables => exact (Table_err tables q).trans h
  | Column columns => exact (Column_err columns q).trans h
  | TableExpr _ _ => exact h
  | ModelTable _ => exact h
  | ModelTableExpr _ _ => exact h
  | Setting _ _ => exact h
  | ColumnExpr _ _ => exact h
  | ExcludeColumn _ => exact h
  | Where _ _ => exact h
  | WhereOr _ _ => exact h

/-- No chain of builder calls replaces an error that is already recorded. -/
theorem calls_err_of_some (cs : List BuilderCall) (q : InsertQuery) (e : GoError)
    (h : q.err = some e) : (q.calls cs).err = some e := by
  unfold InsertQuery.calls
  induction cs generalizing q with
  | nil => exact h
  | cons c cs ih =>
    rw [List.foldl_cons]
    exact ih (q.call c) (call_err_of_some q c e h)

/-- `AppendQuery` on a state with a recorded error. -/
theorem AppendQuery_of_err (q : InsertQuery) (fmter : Formatter) (b : Bytes) (e : GoError)
    (h : q.err = some e) : q.AppendQuery fmter b = (none, some e) := by
  unfold InsertQuery.AppendQuery
  rw [h]

/-- C1, first-error wins: on every state whose recorded error is `e`, for every
formatter and input buffer, `AppendQuery` returns the nil buffer and `e` itself,
whatever else the state holds; and after any chain of further builder calls the
render is still exactly that. -/
theorem C1_first_error_wins (q : InsertQuery) (fmter : Formatter) (b : Bytes)
    (e : GoError) (h : q.err = some e) :
    q.AppendQuery fmter b = (none, some e) ∧
    ∀ cs : List BuilderCall, (q.calls cs).AppendQuery fmter b = (none, some e) :=
  ⟨AppendQuery_of_err q fmter b e h,
   fun cs => AppendQuery_of_err _ fmter b e (calls_err_of_some cs q e h)⟩

/-- C1 at a query whose model failed to reflect, followed by valid calls. -/
theorem C1_first_error_wins_witness :
    ((NewInsertQuery plainDB).Model (GoAny.int 7)).err
        = some (GoError.foreign "ch: unsupported model") ∧
    (((NewInsertQuery plainDB).Model (GoAny.int 7)).AppendQuery plainFormatter "x"
        = (none, some (GoError.foreign "ch: unsupported model")) ∧
     ∀ cs : List BuilderCall,
      (((NewInsertQuery plainDB).Model (GoAny.int 7)).calls cs).AppendQuery plainFormatter "x"
        = (none, some (GoError.foreign "ch: unsupported model"))) :=
  ⟨by decide,
   C1_first_error_wins ((NewInsertQuery plainDB).Model (GoAny.int 7)) plainFormatter "x"
     (GoError.foreign "ch: unsupported model") (by decide)⟩

/-- No fragment fails exactly when `firstFailure` finds nothing. -/
theorem firstFailure_eq_none (fmter : Formatter) (xs : List QueryWithArgs) :
    firstFailure fmter xs = none ↔ ∀ x ∈ xs, (x.render fmter).2 = none := by
  induction xs with
  | nil => simp [firstFailure]
  | cons x xs ih =>
    rw [firstFailure]
    cases h : (x.render fmter).2 with
    | some msg => simp [h]
    | none => simp [h, ih]

/-- A successful `appendWhere` on the empty buffer gives the text it appends to any
buffer. -/
theorem appendWhere_of_empty (fmter : Formatter) (fs : List QueryWithSep) (w : Bytes)
    (hw : appendWhere fmter "" fs = (some w, none)) (b : Bytes) :
    appendWhere fmter b fs = (some (b ++ w), none) := by
  unfold appendWhere at hw ⊢
  rw [appendWhereFrom_eq] at hw ⊢
  cases hf : firstFailure fmter (fs.map QueryWithSep.toQueryWithArgs) with
  | some e => rw [hf] at hw; simp at hw
  | none =>
    rw [hf] at hw
    simp only [String.empty_append, Prod.mk.injEq, Option.some.injEq, and_true] at hw
    rw [hw]

/-- C2, single-table shape: an error-free state with no explicit table beyond the insert
target (`hasMultiTables` is false), no resolved fields and no settings renders, on the
empty buffer, exactly `INSERT INTO `, the rendering of the insert target, and
` VALUES`. -/
theorem C2_single_table_shape (q : InsertQuery) (fmter : Formatter) (t : Bytes)
    (herr : q.err = none) (hmulti : q.hasMultiTables = false)
    (hfields : q.getFields = ([], none)) (hset : q.settings = [])
    (ht : q.appendInsertTable fmter "" = (some t, none)) :
    q.AppendQuery fmter "" = (some ("INSERT INTO " ++ t ++ " VALUES"), none) := by
  unfold InsertQuery.AppendQuery
  rw [herr]
  simp only [appendInsertTable_of_empty q fmter t ht, hfields, InsertQuery.appendValues,
    hmulti, appendSettings_nil q fmter _ hset]
  simp

/-- C2 at the statement `Table("t")` with the plain formatter. -/
theorem C2_single_table_shape_witness :
    ((NewInsertQuery plainDB).Table ["t"]).AppendQuery plainFormatter ""
      = (some "INSERT INTO t VALUES", none) :=
  C2_single_table_shape ((NewInsertQuery plainDB).Table ["t"]) plainFormatter "t"
    (by decide) (by decide) (by decide) (by decide) (by decide)

/-- C3, multi-table shape: an error-free state with an explicit table beyond the insert
target, no resolved fields, at least one filter, no settings, and fragments that all
render, gives exactly `INSERT INTO ` target ` SELECT * FROM ` the comma-joined renderings
of the tables other than the insert target ` WHERE ` the joined filter expression. The
statement `Table("dst").TableExpr("src").Where("id > ?", 100)` renders
`INSERT INTO dst SELECT * FROM src WHERE id > 100` under every formatter that renders its
three fragments as `dst`, `src` and `id > 100`. -/
theorem C3_multi_table_shape (q : InsertQuery) (fmter : Formatter) (t w : Bytes)
    (herr : q.err = none) (hmulti : q.hasMultiTables = true)
    (hfields : q.getFields = ([], none)) (hwhere : q.where_.filters ≠ [])
    (hset : q.settings = [])
    (ht : q.appendInsertTable fmter "" = (some t, none))
    (ho : ∀ x ∈ q.otherTables, (x.render fmter).2 = none)
    (hw : appendWhere fmter "" q.where_.filters = (some w, none)) :
    q.AppendQuery fmter "" =
      (some ("INSERT INTO " ++ t ++ " SELECT * FROM "
        ++ String.intercalate ", " (q.otherTables.map (fun x => (x.render fmter).1))
        ++ " WHERE " ++ w), none) ∧
    ∀ db : DB, fmter.formatName "dst" = ("dst", none) →
      fmter.formatArgs "src" [] = ("src", none) →
      fmter.formatArgs "id > ?" [GoAny.int 100] = ("id > 100", none) →
      ((((NewInsertQuery db).Table ["dst"]).TableExpr "src" []).Where "id > ?"
          [GoAny.int 100]).AppendQuery fmter ""
        = (some "INSERT INTO dst SELECT * FROM src WHERE id > 100", none) := by
  constructor
  · have hlen : q.where_.filters.length > 0 := List.length_pos.mpr hwhere
    unfold InsertQuery.AppendQuery
    rw [herr]
    simp only [appendInsertTable_of_empty q fmter t ht, hfields, InsertQuery.appendValues,
      hmulti, baseQuery.appendOtherTables, appendQueries_eq,
      (firstFailure_eq_none fmter _).mpr ho, hlen,
      appendWhere_of_empty fmter _ w hw, appendSettings_nil q fmter _ hset]
    simp [joinedText, String.append_assoc]
  · intro db h1 h2 h3
    simp [InsertQuery.AppendQuery, NewInsertQuery, InsertQuery.Table, InsertQuery.TableExpr,
      InsertQuery.Where, InsertQuery.appendInsertTable, InsertQuery.appendValues,
      baseQuery.addTable, whereQuery.addFilter, baseQuery.getFields, baseQuery.hasMultiTables,
      baseQuery.modelHasTableName, baseQuery.appendOtherTables, baseQuery.otherTables,
      baseQuery.appendSettings, appendQueries, appendWhere, appendWhereFrom,
      QueryWithArgs.AppendQuery, QueryWithArgs.render, UnsafeName, SafeQuery,
      SafeQueryWithSep, appendColumns, h1, h2, h3]

/-- C3 at `Table("dst").TableExpr("src").Where("id > ?", 100)` with the plain
formatter, which substitutes the placeholder. -/
theorem C3_multi_table_shape_witness :
    ((((NewInsertQuery plainDB).Table ["dst"]).TableExpr "src" []).Where "id > ?"
        [GoAny.int 100]).AppendQuery plainFormatter ""
      = (some "INSERT INTO dst SELECT * FROM src WHERE id > 100", none) :=
  (C3_multi_table_shape
    ((((NewInsertQuery plainDB).Table ["dst"]).TableExpr "src" []).Where "id > ?"
        [GoAny.int 100]) plainFormatter "dst" "id > 100"
    (by decide) (by decide) (by decide) (by decide) (by decide) (by decide) (by decide)
    (by decide)).2 plainDB (by decide) (by decide) (by decide)

/-- C4, insert-target precedence chain: with no model-table override, a bound model
makes `appendInsertTable` emit the canonical insert-table name of the model, whatever
the explicit tables are (replacing them changes nothing); with no bound model and a
non-empty explicit table list it returns the rendering of the first explicit table
only; with neither, nothing is rendered. -/
theorem C4_insert_target_precedence (q : InsertQuery) (fmter : Formatter) (b : Bytes)
    (hover : q.modelTableName = none) :
    (∀ t, q.table = some t →
      q.appendInsertTable fmter b = (some (fmter.AppendQuery b t.CHInsertName []), none)) ∧
    (∀ t, q.table = some t → ∀ ts : List QueryWithArgs,
      ({ q with tables := ts } : InsertQuery).appendInsertTable fmter b
        = q.appendInsertTable fmter b) ∧
    (q.table = none → ∀ first rest, q.tables = first :: rest →
      q.appendInsertTable fmter b = first.AppendQuery fmter b) ∧
    (q.table = none → q.tables = [] →
      q.appendInsertTable fmter b
        = (none, some (GoError.errorsNew "ch: query does not have a table"))) := by
  refine ⟨?_, ?_, ?_, ?_⟩
  · intro t ht
    simp [InsertQuery.appendInsertTable, hover, ht]
  · intro t ht ts
    simp [InsertQuery.appendInsertTable, hover, ht]
  · intro ht first rest hts
    simp [InsertQuery.appendInsertTable, hover, ht, hts]
  · intro ht hts
    simp [InsertQuery.appendInsertTable, hover, ht, hts]

/-- C4 at `Model(&row).Table("events")`: the target is the table of the model. -/
theorem C4_insert_target_precedence_witness :
    (((NewInsertQuery plainDB).Model (GoAny.row "Row")).Table ["events"]).appendInsertTable
        plainFormatter "INSERT INTO "
      = (some "INSERT INTO rows", none) :=
  (C4_insert_target_precedence
    (((NewInsertQuery plainDB).Model (GoAny.row "Row")).Table ["events"]) plainFormatter
    "INSERT INTO " (by decide)).1
    { CHInsertName := "rows", Fields := [⟨"id", "id"⟩, ⟨"name", "name"⟩] } (by decide)

/-- C5, override precedence: on a state with a bound model, after `ModelTable` or
`ModelTableExpr` (any text, any arguments) `appendInsertTable` returns the rendering of
the override; so does every state that holds an override; the insert-table name of the
model is what the same state emits once the override is taken away. -/
theorem C5_override_precedence (q : InsertQuery) (fmter : Formatter) (b : Bytes) (t : Table)
    (hmodel : q.table = some t) :
    (∀ table : String,
      (q.ModelTable table).appendInsertTable fmter b = (UnsafeName table).AppendQuery fmter b) ∧
    (∀ (query : String) (args : List GoAny),
      (q.ModelTableExpr query args).appendInsertTable fmter b
        = (SafeQuery query args).AppendQuery fmter b) ∧
    (∀ m, q.modelTableName = some m → q.appendInsertTable fmter b = m.AppendQuery fmter b) ∧
    ({ q with modelTableName := none } : InsertQuery).appendInsertTable fmter b
      = (some (fmter.AppendQuery b t.CHInsertName []), none) := by
  refine ⟨?_, ?_, ?_, ?_⟩
  · intro table
    simp [InsertQuery.appendInsertTable, InsertQuery.ModelTable]
  · intro query args
    simp [InsertQuery.appendInsertTable, InsertQuery.ModelTableExpr]
  · intro m hm
    simp [InsertQuery.appendInsertTable, hm]
  · simp [InsertQuery.appendInsertTable, hmodel]

/-- C5 at `Model(&row).ModelTable("archive")`: the override is emitted, not `rows`. -/
theorem C5_override_precedence_witness :
    (((NewInsertQuery plainDB).Model (GoAny.row "Row")).ModelTable "archive").appendInsertTable
        plainFormatter "INSERT INTO "
      = (some "INSERT INTO archive", none) :=
  (C5_override_precedence ((NewInsertQuery plainDB).Model (GoAny.row "Row")) plainFormatter
    "INSERT INTO " { CHInsertName := "rows", Fields := [⟨"id", "id"⟩, ⟨"name", "name"⟩] }
    (by decide)).1 "archive"

/-- C6, no-table configuration error: an error-free state with no override, no bound
model and no explicit table makes `AppendQuery` return the nil buffer and the error
`ch: query does not have a table`; and whenever an override, a bound model or an
explicit table is present, `appendInsertTable` does not return that error. -/
theorem C6_no_table_error (q : InsertQuery) (fmter : Formatter) (b : Bytes) :
    (q.err = none → q.modelTableName = none → q.table = none → q.tables = [] →
      q.AppendQuery fmter b
        = (none, some (GoError.errorsNew "ch: query does not have a table"))) ∧
    ((q.modelTableName ≠ none ∨ q.table ≠ none ∨ q.tables ≠ []) →
      (q.appendInsertTable fmter b).2
        ≠ some (GoError.errorsNew "ch: query does not have a table")) := by
  constructor
  · intro herr hover ht hts
    simp [InsertQuery.AppendQuery, InsertQuery.appendInsertTable, herr, hover, ht, hts]
  · intro h
    unfold InsertQuery.appendInsertTable
    cases hm : q.modelTableName with
    | some m =>
      cases hr : (m.render fmter).2 <;> simp [QueryWithArgs.AppendQuery, hr]
    | none =>
      cases ht : q.table with
      | some t => simp
      | none =>
        cases hts : q.tables with
        | nil => simp [hm, ht, hts] at h
        | cons first rest =>
          cases hr : (first.render fmter).2 <;> simp [QueryWithArgs.AppendQuery, hr]

/-- C6 at the freshly constructed query, which has no table of any kind. -/
theorem C6_no_table_error_witness :
    (NewInsertQuery plainDB).AppendQuery plainFormatter ""
      = (none, some (GoError.errorsNew "ch: query does not have a table")) :=
  (C6_no_table_error (NewInsertQuery plainDB) plainFormatter "").1
    (by decide) (by decide) (by decide) (by decide)

/-- C7, settings appended last: when `AppendQuery` succeeds, its output is the output of
the same state with an empty settings list, which is the buffer `appendValues` returned
(ending in ` VALUES` in the single-table shape, holding ` SELECT ` in the multi-table
shape), followed by ` SETTINGS ` and the comma-joined settings when settings are
registered and by nothing when none are. -/
theorem C7_settings_last (q : InsertQuery) (fmter : Formatter) (b : Bytes)
    (h : (q.AppendQuery fmter b).2 = none) :
    ∃ pre base : Bytes,
      q.appendValues fmter pre = (some base, none) ∧
      (q.hasMultiTables = false → base = pre ++ " VALUES") ∧
      (q.hasMultiTables = true → ∃ rest, base = pre ++ " SELECT " ++ rest) ∧
      ({ q with settings := [] } : InsertQuery).AppendQuery fmter b = (some base, none) ∧
      q.AppendQuery fmter b =
        (some (base ++
          (if q.settings = [] then ""
           else " SETTINGS "
             ++ String.intercalate ", " (q.settings.map (fun x => (x.render fmter).1)))),
         none) := by
  obtain ⟨t, base, herr, hT, hF, hV, _, hout⟩ := AppendQuery_success q fmter b h
  refine ⟨_, base, hV, ?_, ?_, ?_, ?_⟩
  · intro hm
    rw [appendValues_eq, if_pos hm] at hV
    simp only [Prod.mk.injEq, Option.some.injEq, and_true] at hV
    exact hV.symm
  · intro hm
    have hf := appendValues_failures q fmter _ hm (by rw [hV])
    rw [appendValues_eq, hm, hf.1, hf.2] at hV
    simp only [Bool.true_eq_false, ↓reduceIte] at hV
    split at hV
    · simp at hV
    · simp only [Prod.mk.injEq, Option.some.injEq, and_true] at hV
      refine ⟨selectList q.getFields.1 ++ " FROM " ++ joinedText fmter q.otherTables
        ++ whereClause fmter q.where_.filters, ?_⟩
      rw [← hV]
      simp only [String.append_assoc]
  · have h0 := AppendQuery_of_steps ({ q with settings := [] } : InsertQuery) fmter b t base
      herr hT hF hV rfl
    rw [h0]
    simp [settingsClause]
  · rw [hout]
    cases hs : q.settings with
    | nil => simp [settingsClause]
    | cons x xs => simp [settingsClause, joinedText]

/-- C7 at `Table("t").Setting("max_threads = ?", 4)`. -/
theorem C7_settings_last_witness :
    ∃ pre base : Bytes,
      (((NewInsertQuery plainDB).Table ["t"]).Setting "max_threads = ?"
        [GoAny.int 4]).appendValues plainFormatter pre = (some base, none) ∧
      ((NewInsertQuery plainDB).Table ["t"]).AppendQuery plainFormatter "" = (some base, none) ∧
      (((NewInsertQuery plainDB).Table ["t"]).Setting "max_threads = ?"
        [GoAny.int 4]).AppendQuery plainFormatter ""
        = (some (base ++ " SETTINGS max_threads = 4"), none) := by
  obtain ⟨pre, base, h1, _, _, h2, h3⟩ :=
    C7_settings_last (((NewInsertQuery plainDB).Table ["t"]).Setting "max_threads = ?"
      [GoAny.int 4]) plainFormatter "" (by decide)
  exact ⟨pre, base, h1, h2, h3⟩

/-- C8 as stated fails: `Model(&row).Table("events")` does not render
`INSERT INTO events (id, name) VALUES` for a model with columns, nor
`INSERT INTO events VALUES` for a model without; the target is the table of the model
and `events` is selected from. -/
theorem C8_model_plus_table_counterexample :
    (((NewInsertQuery plainDB).Model (GoAny.row "Row")).Table ["events"]).AppendQuery
        plainFormatter ""
      = (some "INSERT INTO rows (id, name) SELECT id, name FROM events", none) ∧
    (((NewInsertQuery plainDB).Model (GoAny.row "Row")).Table ["events"]).AppendQuery
        plainFormatter ""
      ≠ (some "INSERT INTO events (id, name) VALUES", none) ∧
    (((NewInsertQuery plainDB).Model (GoAny.row "Bare")).Table ["events"]).AppendQuery
        plainFormatter ""
      = (some "INSERT INTO bare SELECT * FROM events", none) ∧
    (((NewInsertQuery plainDB).Model (GoAny.row "Bare")).Table ["events"]).AppendQuery
        plainFormatter ""
      ≠ (some "INSERT INTO events VALUES", none) := by
  decide

/-- C8, amended: for every bound model `row`, `Model(&row).Table("events")` has the
canonical insert table of the model as its insert target, has `events` as an explicit
table beyond that target, and renders `INSERT INTO ` the insert-table name of the model,
the reflected columns as ` (col1, col2)` when the model has columns, ` SELECT ` those
columns or `*`, ` FROM ` and the rendering of `events`. -/
theorem C8_model_plus_table (db : DB) (fmter : Formatter) (row : GoAny) (tm : TableModel)
    (hbound : db.newSingleModel row = Except.ok tm)
    (hev : (fmter.formatName "events").2 = none) :
    (((NewInsertQuery db).Model row).Table ["events"]).appendInsertTable fmter ""
      = (some (fmter.formatQuery tm.Table.CHInsertName []), none) ∧
    (((NewInsertQuery db).Model row).Table ["events"]).hasMultiTables = true ∧
    (((NewInsertQuery db).Model row).Table ["events"]).AppendQuery fmter ""
      = (some ("INSERT INTO " ++ fmter.formatQuery tm.Table.CHInsertName []
          ++ (if tm.Table.Fields.length > 0 then
                " (" ++ String.intercalate ", " (tm.Table.Fields.map Field.Column) ++ ")"
              else "")
          ++ " SELECT "
          ++ (if tm.Table.Fields.length > 0 then
                String.intercalate ", " (tm.Table.Fields.map Field.Column)
              else "*")
          ++ " FROM " ++ (fmter.formatName "events").1), none) := by
  have hq : (((NewInsertQuery db).Model row).Table ["events"]) =
      ({ db := db, tableModel := some tm, table := some tm.Table,
         tables := [UnsafeName "events"] } : InsertQuery) := by
    simp [InsertQuery.Table, InsertQuery.Model, NewInsertQuery, baseQuery.setTableModel,
      hbound, baseQuery.addTable]
  rw [hq]
  refine ⟨?_, ?_, ?_⟩
  · simp [InsertQuery.appendInsertTable, Formatter.AppendQuery]
  · simp [baseQuery.hasMultiTables, baseQuery.modelHasTableName]
  · by_cases hl : tm.Table.Fields.length > 0 <;>
      simp [InsertQuery.AppendQuery, InsertQuery.appendInsertTable, Formatter.AppendQuery,
        baseQuery.getFields, InsertQuery.appendValues, baseQuery.hasMultiTables,
        baseQuery.modelHasTableName, baseQuery.appendOtherTables, baseQuery.otherTables,
        appendQueries, QueryWithArgs.AppendQuery, QueryWithArgs.render, UnsafeName, hev,
        baseQuery.appendSettings, appendColumns, hl, String.append_assoc]

/-- C8 amended, at the row type `Row` of the plain database. -/
theorem C8_model_plus_table_witness :
    (((NewInsertQuery plainDB).Model (GoAny.row "Row")).Table ["events"]).hasMultiTables
      = true ∧
    (((NewInsertQuery plainDB).Model (GoAny.row "Row")).Table ["events"]).appendInsertTable
        plainFormatter ""
      = (some "rows", none) :=
  ⟨(C8_model_plus_table plainDB plainFormatter (GoAny.row "Row")
      { value := GoAny.row "Row",
        Table := { CHInsertName := "rows", Fields := [⟨"id", "id"⟩, ⟨"name", "name"⟩] } }
      rfl (by decide)).2.1,
   (C8_model_plus_table plainDB plainFormatter (GoAny.row "Row")
      { value := GoAny.row "Row",
        Table := { CHInsertName := "rows", Fields := [⟨"id", "id"⟩, ⟨"name", "name"⟩] } }
      rfl (by decide)).1⟩

/-- C9, failure is atomic: `AppendQuery` returns either a buffer and no error or the nil
buffer and an error; and whenever a failure point fails (recorded error, insert table,
fields, another table or a filter of the multi-table shape, a setting) it returns the
nil buffer and an error. -/
theorem C9_failure_atomic (q : InsertQuery) (fmter : Formatter) (b : Bytes) :
    ((∃ out, q.AppendQuery fmter b = (some out, none)) ∨
      (∃ e, q.AppendQuery fmter b = (none, some e))) ∧
    (∀ e, (q.err = some e
        ∨ (q.appendInsertTable fmter (b ++ "INSERT INTO ")).2 = some e
        ∨ q.getFields.2 = some e
        ∨ (q.hasMultiTables = true ∧ firstFailure fmter q.otherTables = some e)
        ∨ (q.hasMultiTables = true ∧
            firstFailure fmter (q.where_.filters.map QueryWithSep.toQueryWithArgs) = some e)
        ∨ firstFailure fmter q.settings = some e) →
      ∃ e1, q.AppendQuery fmter b = (none, some e1)) := by
  have hdich : ∀ r : Option GoError, (q.AppendQuery fmter b).2 = r →
      (∃ out, q.AppendQuery fmter b = (some out, none)) ∨
      (∃ e, q.AppendQuery fmter b = (none, some e)) := by
    intro r hr
    cases r with
    | none =>
      obtain ⟨t, base, _, _, _, _, _, hout⟩ := AppendQuery_success q fmter b hr
      exact Or.inl ⟨_, hout⟩
    | some e => exact Or.inr ⟨e, AppendQuery_failure q fmter b e hr⟩
  refine ⟨hdich _ rfl, ?_⟩
  intro e hfail
  cases hr : (q.AppendQuery fmter b).2 with
  | some e1 => exact ⟨e1, AppendQuery_failure q fmter b e1 hr⟩
  | none =>
    exfalso
    obtain ⟨t, base, herr, hT, hF, hV, hS, _⟩ := AppendQuery_success q fmter b hr
    rcases hfail with h | h | h | h | h | h
    · rw [herr] at h; simp at h
    · rw [hT] at h; simp at h
    · rw [hF] at h; simp at h
    · have hf := appendValues_failures q fmter _ h.1 (by rw [hV])
      rw [hf.1] at h; simp at h
    · have hf := appendValues_failures q fmter _ h.1 (by rw [hV])
      rw [hf.2] at h; simp at h
    · rw [hS] at h; simp at h

/-- C10, a failed render never reaches the network: when `AppendQuery` fails with `e`,
`Exec` returns no result and `e`, and the trace of observer and connection calls is
empty. -/
theorem C10_failed_render_no_network (q : InsertQuery) (e : GoError)
    (h : (q.AppendQuery q.db.fmter q.db.makeQueryBytes).2 = some e) :
    q.Exec = ((none, some e), []) := by
  unfold InsertQuery.Exec
  rw [AppendQuery_failure q _ _ e h]

/-- C10 at the freshly constructed query, whose render fails for lack of a table. -/
theorem C10_failed_render_no_network_witness :
    (NewInsertQuery plainDB).Exec
      = ((none, some (GoError.errorsNew "ch: query does not have a table")), []) :=
  C10_failed_render_no_network (NewInsertQuery plainDB)
    (GoError.errorsNew "ch: query does not have a table") (by decide)

/-- Closed form of a successful `AppendQuery`: the buffer, `INSERT INTO `, the insert
target, the column list, the VALUES or SELECT clause, the settings clause. -/
theorem AppendQuery_closed (q : InsertQuery) (fmter : Formatter) (b : Bytes)
    (h : (q.AppendQuery fmter b).2 = none) :
    q.AppendQuery fmter b =
      (some (b ++ "INSERT INTO " ++ q.targetText fmter ++ columnClause q.getFields.1
        ++ q.valuesClause fmter ++ settingsClause fmter q.settings), none) := by
  obtain ⟨t, base, _, hT, _, hV, _, hout⟩ := AppendQuery_success q fmter b h
  rw [hout]
  rw [appendInsertTable_shift] at hT
  have ht : t = b ++ "INSERT INTO " ++ q.targetText fmter := by
    unfold InsertQuery.targetText
    cases hx : (q.appendInsertTable fmter "").1 with
    | none => rw [hx] at hT; simp at hT
    | some x =>
      rw [hx] at hT
      simp only [Option.map_some', Prod.mk.injEq, Option.some.injEq] at hT
      rw [← hT.1]
      rfl
  have hb : base = (if q.getFields.1.length > 0 then
        appendColumns (t ++ " (") "" q.getFields.1 ++ ")" else t) ++ q.valuesClause fmter := by
    unfold InsertQuery.valuesClause
    cases hm : q.hasMultiTables with
    | false =>
      rw [appendValues_eq, if_pos hm] at hV
      simp only [Prod.mk.injEq, Option.some.injEq, and_true] at hV
      rw [← hV]
      simp
    | true =>
      have hf := appendValues_failures q fmter _ hm (by rw [hV])
      rw [appendValues_eq, hm, hf.1, hf.2] at hV
      simp only [Bool.true_eq_false, ↓reduceIte] at hV
      split at hV
      · simp at hV
      · simp only [Prod.mk.injEq, Option.some.injEq, and_true] at hV
        rw [← hV]
        simp only [↓reduceIte, String.append_assoc]
  rw [hb, ht]
  by_cases hl : q.getFields.1.length > 0 <;>
    simp [columnClause, hl, appendColumns, String.append_assoc]

/-- A failed render makes `Exec` return at once, with no collaborator call. -/
theorem Exec_of_failure (q : InsertQuery) (e : GoError)
    (h : (q.AppendQuery q.db.fmter q.db.makeQueryBytes).2 = some e) :
    q.Exec = ((none, some e), []) := by
  unfold InsertQuery.Exec
  rw [AppendQuery_failure q _ _ e h]

/-- After a successful render with a bound model, `Exec` notifies before, calls the
insert entry point with the resolved fields, notifies after, and returns the pair of
that call. -/
theorem Exec_of_model (q : InsertQuery) (query : Bytes) (tm : TableModel)
    (h : q.AppendQuery q.db.fmter q.db.makeQueryBytes = (some query, none))
    (hm : q.tableModel = some tm) :
    q.Exec = (goPair (q.db.insert tm query q.getFields.1),
      [Event.beforeQuery query (some tm), Event.insert tm query q.getFields.1,
       Event.afterQuery (goPair (q.db.insert tm query q.getFields.1)).1
         (goPair (q.db.insert tm query q.getFields.1)).2]) := by
  obtain ⟨_, _, _, _, hF, _, _, _⟩ := AppendQuery_success q _ _ (by rw [h])
  unfold InsertQuery.Exec
  rw [h, hm]
  rcases hG : q.getFields with ⟨fields, e⟩
  rw [hG] at hF
  simp only at hF
  subst hF
  simp [goPair]

/-- After a successful render with no bound model, `Exec` notifies before, calls the
exec entry point, notifies after, and returns the pair of that call. -/
theorem Exec_of_no_model (q : InsertQuery) (query : Bytes)
    (h : q.AppendQuery q.db.fmter q.db.makeQueryBytes = (some query, none))
    (hm : q.tableModel = none) :
    q.Exec = (goPair (q.db.exec query),
      [Event.beforeQuery query none, Event.exec query,
       Event.afterQuery (goPair (q.db.exec query)).1 (goPair (q.db.exec query)).2]) := by
  unfold InsertQuery.Exec
  rw [h, hm]
  simp [goPair]

/-- A successful render returns a buffer. -/
theorem AppendQuery_some (q : InsertQuery) (fmter : Formatter) (b : Bytes)
    (h : (q.AppendQuery fmter b).2 = none) :
    ∃ query, q.AppendQuery fmter b = (some query, none) :=
  ⟨_, AppendQuery_closed q fmter b h⟩

/-- C11, unconditional after-notification: when rendering succeeds, whatever the
connection collaborator returns, the trace of `Exec` is one before event, the
collaborator call, one after event, in that order, the after event carrying the pair
`Exec` returns; and on every state, a trace that holds a before event ends with an after
event. -/
theorem C11_after_notification (q : InsertQuery)
    (h : (q.AppendQuery q.db.fmter q.db.makeQueryBytes).2 = none) :
    (∃ query call res err,
      q.AppendQuery q.db.fmter q.db.makeQueryBytes = (some query, none) ∧
      q.Exec = ((res, err),
        [Event.beforeQuery query q.tableModel, call, Event.afterQuery res err]) ∧
      (call = Event.exec query ∨ ∃ tm, call = Event.insert tm query q.getFields.1)) ∧
    (q.Exec.2.filter Event.isBefore).length = 1 ∧
    (q.Exec.2.filter Event.isAfter).length = 1 ∧
    ∀ q1 : InsertQuery, (∃ ev, ev ∈ q1.Exec.2 ∧ ev.isBefore = true) →
      ∃ res err, q1.Exec.2.getLast? = some (Event.afterQuery res err) := by
  have key : ∀ q1 : InsertQuery,
      (q1.AppendQuery q1.db.fmter q1.db.makeQueryBytes).2 = none →
      ∃ query call res err,
        q1.AppendQuery q1.db.fmter q1.db.makeQueryBytes = (some query, none) ∧
        q1.Exec = ((res, err),
          [Event.beforeQuery query q1.tableModel, call, Event.afterQuery res err]) ∧
        (call = Event.exec query ∨ ∃ tm, call = Event.insert tm query q1.getFields.1) := by
    intro q1 h1
    obtain ⟨query, hq⟩ := AppendQuery_some q1 _ _ h1
    cases hm : q1.tableModel with
    | none =>
      exact ⟨query, Event.exec query, _, _, hq, Exec_of_no_model q1 query hq hm, Or.inl rfl⟩
    | some tm =>
      exact ⟨query, Event.insert tm query q1.getFields.1, _, _, hq,
        Exec_of_model q1 query tm hq hm, Or.inr ⟨tm, rfl⟩⟩
  obtain ⟨query, call, res, err, hq, hE, hc⟩ := key q h
  refine ⟨⟨query, call, res, err, hq, hE, hc⟩, ?_, ?_, ?_⟩
  · rw [hE]
    rcases hc with hc | ⟨tm, hc⟩ <;> subst hc <;> rfl
  · rw [hE]
    rcases hc with hc | ⟨tm, hc⟩ <;> subst hc <;> rfl
  · intro q1 ⟨ev, hev, _⟩
    cases h1 : (q1.AppendQuery q1.db.fmter q1.db.makeQueryBytes).2 with
    | some e =>
      rw [Exec_of_failure q1 e h1] at hev
      simp at hev
    | none =>
      obtain ⟨query1, call1, res1, err1, _, hE1, _⟩ := key q1 h1
      exact ⟨res1, err1, by rw [hE1]; rfl⟩

/-- C11 at `Table("t")` on a connection that refuses the statement: the after event
still fires, once, after the one before event. -/
theorem C11_after_notification_witness :
    ((NewInsertQuery failingDB).Table ["t"]).Exec
      = ((none, some (GoError.foreign "connection refused")),
         [Event.beforeQuery "INSERT INTO t VALUES" none, Event.exec "INSERT INTO t VALUES",
          Event.afterQuery none (some (GoError.foreign "connection refused"))]) ∧
    ((((NewInsertQuery failingDB).Table ["t"]).Exec).2.filter Event.isBefore).length = 1 ∧
    ((((NewInsertQuery failingDB).Table ["t"]).Exec).2.filter Event.isAfter).length = 1 :=
  ⟨by decide,
   (C11_after_notification ((NewInsertQuery failingDB).Table ["t"]) (by decide)).2.1,
   (C11_after_notification ((NewInsertQuery failingDB).Table ["t"]) (by decide)).2.2.1⟩

/-- C12, verbatim forwarding: when rendering succeeds, the result `Exec` returns is the
result of the collaborator call it made and the error it returns is the error value of
that call, nothing else; the after event, the last of the trace, carries the same
pair. -/
theorem C12_verbatim_forwarding (q : InsertQuery)
    (h : (q.AppendQuery q.db.fmter q.db.makeQueryBytes).2 = none) :
    ∃ query, q.AppendQuery q.db.fmter q.db.makeQueryBytes = (some query, none) ∧
      (∀ tm, q.tableModel = some tm →
        q.Exec.1.1 = (q.db.insert tm query q.getFields.1).1 ∧
        q.Exec.1.2 = (q.db.insert tm query q.getFields.1).2.map GoError.foreign ∧
        q.Exec.2.getLast? = some (Event.afterQuery q.Exec.1.1 q.Exec.1.2)) ∧
      (q.tableModel = none →
        q.Exec.1.1 = (q.db.exec query).1 ∧
        q.Exec.1.2 = (q.db.exec query).2.map GoError.foreign ∧
        q.Exec.2.getLast? = some (Event.afterQuery q.Exec.1.1 q.Exec.1.2)) := by
  obtain ⟨query, hq⟩ := AppendQuery_some q _ _ h
  refine ⟨query, hq, ?_, ?_⟩
  · intro tm hm
    rw [Exec_of_model q query tm hq hm]
    exact ⟨rfl, rfl, rfl⟩
  · intro hm
    rw [Exec_of_no_model q query hq hm]
    exact ⟨rfl, rfl, rfl⟩

/-- C12 at `Model(&row)` on a connection that refuses the statement: the refusal comes
back as it is, with no result. -/
theorem C12_verbatim_forwarding_witness :
    ((NewInsertQuery failingDB).Model (GoAny.row "Row")).Exec.1
      = (none, some (GoError.foreign "connection refused")) ∧
    ∃ query,
      ((NewInsertQuery failingDB).Model (GoAny.row "Row")).AppendQuery failingDB.fmter
        failingDB.makeQueryBytes = (some query, none) := by
  obtain ⟨query, hq, _, _⟩ :=
    C12_verbatim_forwarding ((NewInsertQuery failingDB).Model (GoAny.row "Row")) (by decide)
  exact ⟨by decide, query, hq⟩

/-- C17, execution dispatch: when rendering succeeds and a model is bound, the trace of
`Exec` holds exactly one call of the insert entry point, with the bound model, the
rendered statement and the resolved fields (the list the column clause of the statement
is built from), and no call of the exec entry point; with no bound model it holds
exactly one call of the exec entry point, with the rendered statement, and no call of
the insert entry point. -/
theorem C17_execution_dispatch (q : InsertQuery)
    (h : (q.AppendQuery q.db.fmter q.db.makeQueryBytes).2 = none) :
    ∃ query, q.AppendQuery q.db.fmter q.db.makeQueryBytes = (some query, none) ∧
      query = q.db.makeQueryBytes ++ "INSERT INTO " ++ q.targetText q.db.fmter
        ++ columnClause q.getFields.1 ++ q.valuesClause q.db.fmter
        ++ settingsClause q.db.fmter q.settings ∧
      (∀ tm, q.tableModel = some tm →
        q.Exec.2.filter Event.isInsert = [Event.insert tm query q.getFields.1] ∧
        q.Exec.2.filter Event.isExec = []) ∧
      (q.tableModel = none →
        q.Exec.2.filter Event.isExec = [Event.exec query] ∧
        q.Exec.2.filter Event.isInsert = []) := by
  have hc := AppendQuery_closed q _ _ h
  refine ⟨_, hc, rfl, ?_, ?_⟩
  · intro tm hm
    rw [Exec_of_model q _ tm hc hm]
    exact ⟨rfl, rfl⟩
  · intro hm
    rw [Exec_of_no_model q _ hc hm]
    exact ⟨rfl, rfl⟩

/-- C17 at `Model(&row)`: one insert call with the model, the statement and its two
fields, no exec call. -/
theorem C17_execution_dispatch_witness :
    ((NewInsertQuery plainDB).Model (GoAny.row "Row")).Exec.2.filter Event.isInsert
      = [Event.insert
          { value := GoAny.row "Row",
            Table := { CHInsertName := "rows", Fields := [⟨"id", "id"⟩, ⟨"name", "name"⟩] } }
          "INSERT INTO rows (id, name) VALUES" [⟨"id", "id"⟩, ⟨"name", "name"⟩]] ∧
    ∃ query,
      ((NewInsertQuery plainDB).Model (GoAny.row "Row")).AppendQuery plainDB.fmter
        plainDB.makeQueryBytes = (some query, none) := by
  obtain ⟨query, hq, _, _, _⟩ :=
    C17_execution_dispatch ((NewInsertQuery plainDB).Model (GoAny.row "Row")) (by decide)
  exact ⟨by decide, query, hq⟩

/-- With read-only callees `appendInsertTable` hands the receiver back unchanged. -/
theorem appendInsertTableS_state (H : Receivers) (hro : H.ReadOnly) (q : InsertQuery)
    (fmter : Formatter) (b : Bytes) : (q.appendInsertTableS H fmter b).2 = q := by
  obtain ⟨hr, _⟩ := hro
  rcases q with ⟨⟨db, err, tableModel, table, modelTableName, tables, columns, excluded,
    settings⟩, w⟩
  unfold InsertQuery.appendInsertTableS
  cases modelTableName with
  | some m => simp [hr]
  | none =>
    cases table with
    | some t => rfl
    | none =>
      cases tables with
      | nil => rfl
      | cons first rest => simp [hr]

/-- With read-only callees `appendValues` hands the receiver back unchanged. -/
theorem appendValuesS_state (H : Receivers) (hro : H.ReadOnly) (q : InsertQuery)
    (fmter : Formatter) (b : Bytes) : (q.appendValuesS H fmter b).2 = q := by
  obtain ⟨_, hg, hm, ho, _, hw⟩ := hro
  unfold InsertQuery.appendValuesS
  rcases h1 : H.hasMultiTables q.tobaseQuery with ⟨multi, base1⟩
  have e1 : base1 = q.tobaseQuery := by have := hm q.tobaseQuery; rw [h1] at this; exact this
  subst e1
  cases multi with
  | false => rfl
  | true =>
    simp only
    rcases h2 : H.getFields q.tobaseQuery with ⟨⟨fields, ferr⟩, base2⟩
    have e2 : base2 = q.tobaseQuery := by have := hg q.tobaseQuery; rw [h2] at this; exact this
    subst e2
    cases ferr with
    | some e => rfl
    | none =>
      simp only
      rcases h3 : H.appendOtherTables q.tobaseQuery fmter
          ((if fields.length > 0 then appendColumns (b ++ " SELECT ") "" fields
            else b ++ " SELECT " ++ "*") ++ " FROM ") with ⟨⟨b1, oerr⟩, base3⟩
      have e3 : base3 = q.tobaseQuery := by
        have := ho q.tobaseQuery fmter
          ((if fields.length > 0 then appendColumns (b ++ " SELECT ") "" fields
            else b ++ " SELECT " ++ "*") ++ " FROM ")
        rw [h3] at this; exact this
      subst e3
      cases oerr with
      | some e => rfl
      | none =>
        simp only
        by_cases hl : q.where_.filters.length > 0
        · rw [if_pos hl]
          rcases h4 : H.appendWhere fmter (b1.getD "" ++ " WHERE ") q.where_.filters
            with ⟨⟨b2, werr⟩, fs⟩
          have e4 : fs = q.where_.filters := by
            have := hw fmter (b1.getD "" ++ " WHERE ") q.where_.filters
            rw [h4] at this; exact this
          subst e4
          cases werr <;> rfl
        · rw [if_neg hl]

/-- With read-only callees `AppendQuery` hands the receiver back unchanged. -/
theorem AppendQueryS_state (H : Receivers) (hro : H.ReadOnly) (q : InsertQuery)
    (fmter : Formatter) (b : Bytes) : (q.AppendQueryS H fmter b).2 = q := by
  unfold InsertQuery.AppendQueryS
  cases q.err with
  | some e => rfl
  | none =>
    simp only
    rcases h1 : q.appendInsertTableS H fmter (b ++ "INSERT INTO ") with ⟨⟨b1, e1⟩, q1⟩
    have s1 : q1 = q := by
      have := appendInsertTableS_state H hro q fmter (b ++ "INSERT INTO ")
      rw [h1] at this; exact this
    subst s1
    cases e1 with
    | some e => rfl
    | none =>
      simp only
      rcases h2 : H.getFields q1.tobaseQuery with ⟨⟨fields, ferr⟩, base2⟩
      have s2 : base2 = q1.tobaseQuery := by
        have := hro.2.1 q1.tobaseQuery; rw [h2] at this; exact this
      subst s2
      cases ferr with
      | some e => rfl
      | none =>
        simp only
        rcases h3 : q1.appendValuesS H fmter
            (if fields.length > 0 then appendColumns (b1.getD "" ++ " (") "" fields ++ ")"
             else b1.getD "") with ⟨⟨b2, verr⟩, q3⟩
        have s3 : q3 = q1 := by
          have := appendValuesS_state H hro q1 fmter
            (if fields.length > 0 then appendColumns (b1.getD "" ++ " (") "" fields ++ ")"
             else b1.getD "")
          rw [h3] at this; exact this
        subst s3
        cases verr with
        | some e => rfl
        | none =>
          simp only
          rcases h4 : H.appendSettings q3.tobaseQuery fmter (b2.getD "")
            with ⟨⟨b3, serr⟩, base4⟩
          have s4 : base4 = q3.tobaseQuery := by
            have := hro.2.2.2.2.1 q3.tobaseQuery fmter (b2.getD ""); rw [h4] at this; exact this
          subst s4
          cases serr <;> rfl

/-- With the callees as modelled from the spec, the threaded `appendInsertTable` returns
what the method returns. -/
theorem appendInsertTableS_pure (q : InsertQuery) (fmter : Formatter) (b : Bytes) :
    q.appendInsertTableS pureReceivers fmter b = (q.appendInsertTable fmter b, q) := by
  rcases q with ⟨⟨db, err, tableModel, table, modelTableName, tables, columns, excluded,
    settings⟩, w⟩
  unfold InsertQuery.appendInsertTableS InsertQuery.appendInsertTable
  cases modelTableName with
  | some m => rfl
  | none =>
    cases table with
    | some t => rfl
    | none =>
      cases tables with
      | nil => rfl
      | cons first rest => rfl

/-- With the callees as modelled from the spec, the threaded `appendValues` returns what
the method returns. -/
theorem appendValuesS_pure (q : InsertQuery) (fmter : Formatter) (b : Bytes) :
    q.appendValuesS pureReceivers fmter b = (q.appendValues fmter b, q) := by
  unfold InsertQuery.appendValuesS InsertQuery.appendValues
  simp only [pureReceivers]
  cases q.hasMultiTables with
  | false => rfl
  | true =>
    simp only [Bool.not_true, Bool.false_eq_true, ↓reduceIte]
    rcases q.getFields with ⟨fields, ferr⟩
    cases ferr with
    | some e => rfl
    | none =>
      simp only
      rcases q.appendOtherTables fmter
          ((if fields.length > 0 then appendColumns (b ++ " SELECT ") "" fields
            else b ++ " SELECT " ++ "*") ++ " FROM ") with ⟨b1, oerr⟩
      cases oerr with
      | some e => rfl
      | none =>
        simp only
        by_cases hl : q.where_.filters.length > 0
        · simp only [if_pos hl]
          rcases appendWhere fmter (b1.getD "" ++ " WHERE ") q.where_.filters with ⟨b2, werr⟩
          cases werr <;> rfl
        · simp only [if_neg hl]

/-- With the callees as modelled from the spec, the threaded `AppendQuery` returns what
the method returns. -/
theorem AppendQueryS_pure (q : InsertQuery) (fmter : Formatter) (b : Bytes) :
    q.AppendQueryS pureReceivers fmter b = (q.AppendQuery fmter b, q) := by
  unfold InsertQuery.AppendQueryS InsertQuery.AppendQuery
  cases q.err with
  | some e => rfl
  | none =>
    simp only [appendInsertTableS_pure]
    rcases q.appendInsertTable fmter (b ++ "INSERT INTO ") with ⟨b1, e1⟩
    cases e1 with
    | some e => rfl
    | none =>
      simp only [pureReceivers]
      rcases q.getFields with ⟨fields, e2⟩
      cases e2 with
      | some e => rfl
      | none =>
        have hv := appendValuesS_pure q fmter
          (if fields.length > 0 then appendColumns (b1.getD "" ++ " (") "" fields ++ ")"
           else b1.getD "")
        simp only [pureReceivers] at hv
        simp only [hv]
        rcases q.appendValues fmter
            (if fields.length > 0 then appendColumns (b1.getD "" ++ " (") "" fields ++ ")"
             else b1.getD "") with ⟨b2, e3⟩
        cases e3 with
        | some e => rfl
        | none =>
          simp only
          rcases q.appendSettings fmter (b2.getD "") with ⟨b3, e4⟩
          cases e4 <;> rfl

/-- The receiver is really threaded: with a `getFields` that writes, `AppendQuery` hands
back another state than it was given and a second call on it returns another
result. -/
theorem AppendQueryS_writing :
    (((NewInsertQuery plainDB).Table ["t"]).AppendQueryS writingReceivers plainFormatter "").1
      = (some "INSERT INTO t VALUES", none) ∧
    (((NewInsertQuery plainDB).Table ["t"]).AppendQueryS writingReceivers plainFormatter "").2.err
      = some (GoError.foreign "fields resolved") ∧
    ((((NewInsertQuery plainDB).Table ["t"]).AppendQueryS writingReceivers plainFormatter
        "").2.AppendQueryS writingReceivers plainFormatter "").1
      = (none, some (GoError.foreign "fields resolved")) := by
  decide

/-- C13, idempotent and state-preserving rendering: for all callees that keep the
contract of the spec (they leave what they are handed unchanged), `appendInsertTable`
and `AppendQuery` hand every field of the query state back unchanged, and a second call
on the state the first one left, with the same formatter and buffer, returns the same
output or the same error; with the callees as modelled, what they return is the output
of `appendInsertTable` and `AppendQuery`. -/
theorem C13_idempotent_resolution (H : Receivers) (hro : H.ReadOnly) (q : InsertQuery)
    (fmter : Formatter) (b : Bytes) :
    (q.appendInsertTableS H fmter b).2 = q ∧
    (q.AppendQueryS H fmter b).2 = q ∧
    (q.appendInsertTableS H fmter b).2.appendInsertTableS H fmter b
      = q.appendInsertTableS H fmter b ∧
    (q.AppendQueryS H fmter b).2.AppendQueryS H fmter b = q.AppendQueryS H fmter b ∧
    q.appendInsertTableS pureReceivers fmter b = (q.appendInsertTable fmter b, q) ∧
    q.AppendQueryS pureReceivers fmter b = (q.AppendQuery fmter b, q) := by
  refine ⟨appendInsertTableS_state H hro q fmter b, AppendQueryS_state H hro q fmter b, ?_, ?_,
    appendInsertTableS_pure q fmter b, AppendQueryS_pure q fmter b⟩
  · rw [appendInsertTableS_state H hro q fmter b]
  · rw [AppendQueryS_state H hro q fmter b]

/-- C13 at `Model(&row).TableExpr("src")` with the callees as modelled: the state comes
back as it was and the second render is the first. -/
theorem C13_idempotent_resolution_witness :
    ((((NewInsertQuery plainDB).Model (GoAny.row "Row")).TableExpr "src" []).AppendQueryS
        pureReceivers plainFormatter "").2
      = ((NewInsertQuery plainDB).Model (GoAny.row "Row")).TableExpr "src" [] ∧
    ((((NewInsertQuery plainDB).Model (GoAny.row "Row")).TableExpr "src" []).AppendQueryS
        pureReceivers plainFormatter "").2.AppendQueryS pureReceivers plainFormatter ""
      = (((NewInsertQuery plainDB).Model (GoAny.row "Row")).TableExpr "src" []).AppendQueryS
        pureReceivers plainFormatter "" :=
  ⟨(C13_idempotent_resolution pureReceivers
      ⟨fun _ _ _ => rfl, fun _ => rfl, fun _ => rfl, fun _ _ _ => rfl, fun _ _ _ => rfl,
        fun _ _ _ => rfl⟩
      (((NewInsertQuery plainDB).Model (GoAny.row "Row")).TableExpr "src" [])
      plainFormatter "").2.1,
   (C13_idempotent_resolution pureReceivers
      ⟨fun _ _ _ => rfl, fun _ => rfl, fun _ => rfl, fun _ _ _ => rfl, fun _ _ _ => rfl,
        fun _ _ _ => rfl⟩
      (((NewInsertQuery plainDB).Model (GoAny.row "Row")).TableExpr "src" [])
      plainFormatter "").2.2.2.1⟩

/-- Closed form of `Table`: the names are appended to the explicit tables, in order. -/
theorem Table_eq (tables : List String) (q : InsertQuery) :
    q.Table tables = { q with tables := q.tables ++ tables.map UnsafeName } := by
  unfold InsertQuery.Table
  induction tables generalizing q with
  | nil => simp
  | cons t ts ih =>
    rw [List.foldl_cons, ih]
    simp [baseQuery.addTable, List.append_assoc]

/-- Closed form of `Column`: the names are appended to the included columns, in order. -/
theorem Column_eq (columns : List String) (q : InsertQuery) :
    q.Column columns = { q with columns := q.columns ++ columns.map UnsafeName } := by
  unfold InsertQuery.Column
  induction columns generalizing q with
  | nil => simp
  | cons t ts ih =>
    rw [List.foldl_cons, ih]
    simp [baseQuery.addColumn, List.append_assoc]

/-- C14 as stated fails: on a state whose first error is set, `Setting` still appends
its fragment to the settings list and `ModelTable` still replaces the model-table
override. -/
theorem C14_builder_short_circuit_counterexample :
    ((NewInsertQuery plainDB).Model (GoAny.int 7)).err
      = some (GoError.foreign "ch: unsupported model") ∧
    (((NewInsertQuery plainDB).Model (GoAny.int 7)).Setting "max_threads = 4" []).settings
      ≠ ((NewInsertQuery plainDB).Model (GoAny.int 7)).settings ∧
    (((NewInsertQuery plainDB).Model (GoAny.int 7)).ModelTable "archive").modelTableName
      ≠ ((NewInsertQuery plainDB).Model (GoAny.int 7)).modelTableName := by
  decide

/-- C14, amended: on a state whose first error is `e`, no builder call overwrites `e`
and rendering after the call still returns `e` with the nil buffer; the call itself is
not skipped: `Setting` appends its fragment, `ModelTable` and `ModelTableExpr` replace
the override; and every call leaves alone the lists it does not register into. -/
theorem C14_builder_calls_after_error (q : InsertQuery) (e : GoError) (h : q.err = some e) :
    (∀ c : BuilderCall, (q.call c).err = some e ∧
      ∀ (fmter : Formatter) (b : Bytes), (q.call c).AppendQuery fmter b = (none, some e)) ∧
    (∀ (query : String) (args : List GoAny),
      q.Setting query args = { q with settings := q.settings ++ [SafeQuery query args] }) ∧
    (∀ table : String,
      q.ModelTable table = { q with modelTableName := some (UnsafeName table) }) ∧
    (∀ (query : String) (args : List GoAny),
      q.ModelTableExpr query args = { q with modelTableName := some (SafeQuery query args) }) ∧
    (∀ tables : List String, ∃ ts, q.Table tables = { q with tables := ts }) ∧
    (∀ (query : String) (args : List GoAny), ∃ ts,
      q.TableExpr query args = { q with tables := ts }) ∧
    (∀ columns : List String, ∃ cs, q.Column columns = { q with columns := cs }) ∧
    (∀ (query : String) (args : List GoAny), ∃ cs,
      q.ColumnExpr query args = { q with columns := cs }) ∧
    (∀ columns : List String, ∃ xs, q.ExcludeColumn columns = { q with excluded := xs }) ∧
    (∀ (query : String) (args : List GoAny), ∃ fs,
      q.Where query args = { q with where_ := { filters := fs } }) ∧
    (∀ (query : String) (args : List GoAny), ∃ fs,
      q.WhereOr query args = { q with where_ := { filters := fs } }) := by
  refine ⟨?_, ?_, ?_, ?_, ?_, ?_, ?_, ?_, ?_, ?_, ?_⟩
  · intro c
    exact ⟨call_err_of_some q c e h,
      fun fmter b => AppendQuery_of_err _ fmter b e (call_err_of_some q c e h)⟩
  · intro query args; rfl
  · intro table; rfl
  · intro query args; rfl
  · intro tables; exact ⟨_, Table_eq tables q⟩
  · intro query args; exact ⟨_, rfl⟩
  · intro columns; exact ⟨_, Column_eq columns q⟩
  · intro query args; exact ⟨_, rfl⟩
  · intro columns; exact ⟨_, rfl⟩
  · intro query args; exact ⟨_, rfl⟩
  · intro query args; exact ⟨_, rfl⟩

/-- C14 amended, at a query whose model failed to reflect: `Setting` keeps the error and
the render still returns it. -/
theorem C14_builder_calls_after_error_witness :
    (((NewInsertQuery plainDB).Model (GoAny.int 7)).call
        (BuilderCall.Setting "max_threads = 4" [])).err
      = some (GoError.foreign "ch: unsupported model") ∧
    (((NewInsertQuery plainDB).Model (GoAny.int 7)).call
        (BuilderCall.Setting "max_threads = 4" [])).AppendQuery plainFormatter ""
      = (none, some (GoError.foreign "ch: unsupported model")) :=
  ⟨((C14_builder_calls_after_error ((NewInsertQuery plainDB).Model (GoAny.int 7))
      (GoError.foreign "ch: unsupported model") (by decide)).1
      (BuilderCall.Setting "max_threads = 4" [])).1,
   ((C14_builder_calls_after_error ((NewInsertQuery plainDB).Model (GoAny.int 7))
      (GoError.foreign "ch: unsupported model") (by decide)).1
      (BuilderCall.Setting "max_threads = 4" [])).2 plainFormatter ""⟩

/-- Closed form of a successful `appendValues`: the buffer followed by the VALUES or
SELECT clause. -/
theorem appendValues_closed (q : InsertQuery) (fmter : Formatter) (b : Bytes)
    (h : (q.appendValues fmter b).2 = none) :
    q.appendValues fmter b = (some (b ++ q.valuesClause fmter), none) := by
  unfold InsertQuery.valuesClause
  cases hm : q.hasMultiTables with
  | false =>
    rw [appendValues_eq, if_pos hm]
    simp
  | true =>
    have hf := appendValues_failures q fmter b hm h
    rw [appendValues_eq, hm, hf.1, hf.2] at h ⊢
    simp only [Bool.true_eq_false, ↓reduceIte] at h ⊢
    split at h
    · simp at h
    · simp only [String.append_assoc]

/-- C15, column list consistency: on a successful render, when the resolved field list is
non-empty the output is the buffer as `appendInsertTable` left it, then ` (`, the
comma-separated column renderings, `)`, then the VALUES or SELECT clause and the
settings clause, and in the multi-table shape the SELECT clause starts with ` SELECT `
and that same column text; when the resolved field list is empty nothing stands
between the insert target and the clause, and the multi-table projection is `*`. -/
theorem C15_column_list (q : InsertQuery) (fmter : Formatter) (b : Bytes)
    (h : (q.AppendQuery fmter b).2 = none) :
    ∃ t : Bytes, q.err = none ∧
      q.appendInsertTable fmter (b ++ "INSERT INTO ") = (some t, none) ∧
      (q.getFields.1 ≠ [] →
        q.AppendQuery fmter b
          = (some (t ++ " (" ++ String.intercalate ", " (q.getFields.1.map Field.Column) ++ ")"
              ++ q.valuesClause fmter ++ settingsClause fmter q.settings), none) ∧
        q.appendValues fmter
            (t ++ " (" ++ String.intercalate ", " (q.getFields.1.map Field.Column) ++ ")")
          = (some (t ++ " (" ++ String.intercalate ", " (q.getFields.1.map Field.Column) ++ ")"
              ++ q.valuesClause fmter), none) ∧
        (q.hasMultiTables = true →
          q.valuesClause fmter
            = " SELECT " ++ String.intercalate ", " (q.getFields.1.map Field.Column)
              ++ " FROM " ++ joinedText fmter q.otherTables
              ++ whereClause fmter q.where_.filters)) ∧
      (q.getFields.1 = [] →
        q.AppendQuery fmter b
          = (some (t ++ q.valuesClause fmter ++ settingsClause fmter q.settings), none) ∧
        q.appendValues fmter t = (some (t ++ q.valuesClause fmter), none) ∧
        (q.hasMultiTables = true →
          q.valuesClause fmter
            = " SELECT " ++ "*" ++ " FROM " ++ joinedText fmter q.otherTables
              ++ whereClause fmter q.where_.filters)) ∧
      (q.hasMultiTables = false → q.valuesClause fmter = " VALUES") := by
  obtain ⟨t, base, herr, hT, _, hV, _, hout⟩ := AppendQuery_success q fmter b h
  have hb := appendValues_closed q fmter _ (by rw [hV])
  rw [hV] at hb
  simp only [Prod.mk.injEq, Option.some.injEq, and_true] at hb
  refine ⟨t, herr, hT, ?_, ?_, ?_⟩
  · intro hne
    have hl : q.getFields.1.length > 0 := List.length_pos.mpr hne
    rw [if_pos hl] at hV hb
    have hcols : appendColumns (t ++ " (") "" q.getFields.1 ++ ")"
        = t ++ " (" ++ String.intercalate ", " (q.getFields.1.map Field.Column) ++ ")" := by
      simp [appendColumns]
    rw [hcols] at hV hb
    refine ⟨?_, ?_, ?_⟩
    · rw [hout, hb]
    · rw [hV, hb]
    · intro hm
      simp [InsertQuery.valuesClause, hm, selectList, hl, appendColumns]
  · intro hnil
    have hl : ¬ q.getFields.1.length > 0 := by rw [hnil]; simp
    rw [if_neg hl] at hV hb
    refine ⟨?_, ?_, ?_⟩
    · rw [hout, hb]
    · rw [hV, hb]
    · intro hm
      simp [InsertQuery.valuesClause, hm, selectList, hl]
  · intro hm
    simp [InsertQuery.valuesClause, hm]

/-- C15 at `Model(&row).TableExpr("src")`: the column list after the target and the
SELECT projection are the same text. -/
theorem C15_column_list_witness :
    (((NewInsertQuery plainDB).Model (GoAny.row "Row")).TableExpr "src" []).AppendQuery
        plainFormatter ""
      = (some "INSERT INTO rows (id, name) SELECT id, name FROM src", none) ∧
    ∃ t : Bytes,
      (((NewInsertQuery plainDB).Model (GoAny.row "Row")).TableExpr "src" []).appendInsertTable
        plainFormatter ("" ++ "INSERT INTO ") = (some t, none) := by
  obtain ⟨t, _, hT, _⟩ :=
    C15_column_list (((NewInsertQuery plainDB).Model (GoAny.row "Row")).TableExpr "src" [])
      plainFormatter "" (by decide)
  exact ⟨by decide, t, hT⟩

/-- C16, WHERE is omitted for an empty filter list: in the multi-table shape a
successful `appendValues` with no registered filter returns what `appendOtherTables`
returned, the buffer ending with ` FROM ` and the comma-joined other tables, and with
at least one filter it returns that followed by ` WHERE ` and the joined filter
expression. -/
theorem C16_where_omitted (q : InsertQuery) (fmter : Formatter) (b : Bytes)
    (hm : q.hasMultiTables = true) (h : (q.appendValues fmter b).2 = none) :
    (q.where_.filters = [] →
      q.appendValues fmter b
        = (some (b ++ " SELECT " ++ selectList q.getFields.1 ++ " FROM "
            ++ String.intercalate ", " (q.otherTables.map (fun x => (x.render fmter).1))),
           none) ∧
      q.appendValues fmter b
        = q.appendOtherTables fmter (b ++ " SELECT " ++ selectList q.getFields.1 ++ " FROM ")) ∧
    (q.where_.filters ≠ [] →
      q.appendValues fmter b
        = (some (b ++ " SELECT " ++ selectList q.getFields.1 ++ " FROM "
            ++ String.intercalate ", " (q.otherTables.map (fun x => (x.render fmter).1))
            ++ " WHERE " ++ whereText fmter false q.where_.filters), none)) := by
  have hf := appendValues_failures q fmter b hm h
  have hc := appendValues_closed q fmter b h
  constructor
  · intro hnil
    constructor
    · rw [hc]
      simp [InsertQuery.valuesClause, hm, whereClause, hnil, joinedText, String.append_assoc]
    · rw [hc, baseQuery.appendOtherTables, appendQueries_eq, hf.1]
      simp [InsertQuery.valuesClause, hm, whereClause, hnil, String.append_assoc]
  · intro hne
    have hl : q.where_.filters.length > 0 := List.length_pos.mpr hne
    rw [hc]
    simp [InsertQuery.valuesClause, hm, whereClause, hl, joinedText, String.append_assoc]

/-- C16 at `Table("dst").TableExpr("src")`, which has no filter. -/
theorem C16_where_omitted_witness :
    (((NewInsertQuery plainDB).Table ["dst"]).TableExpr "src" []).appendValues plainFormatter
        "INSERT INTO dst"
      = (some "INSERT INTO dst SELECT * FROM src", none) :=
  ((C16_where_omitted (((NewInsertQuery plainDB).Table ["dst"]).TableExpr "src" [])
      plainFormatter "INSERT INTO dst" (by decide) (by decide)).1 (by decide)).1.trans
    (by decide)

/-- C18, filter registration: `Where` puts exactly one fragment at the end of the filter
list, carrying the given text and arguments and the separator ` AND `, and `WhereOr`
one carrying ` OR `; the filters registered before stay in front, in their order, and
the rest of the query state is the same. -/
theorem C18_filter_registration (q : InsertQuery) (query : String) (args : List GoAny) :
    (q.Where query args).where_.filters
      = q.where_.filters
        ++ [{ toQueryWithArgs := QueryWithArgs.query query args, Sep := " AND " }] ∧
    (q.Where query args).tobaseQuery = q.tobaseQuery ∧
    (q.WhereOr query args).where_.filters
      = q.where_.filters
        ++ [{ toQueryWithArgs := QueryWithArgs.query query args, Sep := " OR " }] ∧
    (q.WhereOr query args).tobaseQuery = q.tobaseQuery :=
  ⟨rfl, rfl, rfl, rfl⟩

/-- C19, filters do not influence the single-table shape: when `hasMultiTables` is false,
replacing the registered filters by any others, failing ones included, leaves the
result of `AppendQuery` the same. -/
theorem C19_filters_ignored_single_table (q : InsertQuery) (fmter : Formatter) (b : Bytes)
    (fs : List QueryWithSep) (hm : q.hasMultiTables = false) :
    ({ q with where_ := { filters := fs } } : InsertQuery).AppendQuery fmter b
      = q.AppendQuery fmter b := by
  have hV : ∀ x, ({ q with where_ := { filters := fs } } : InsertQuery).appendValues fmter x
      = q.appendValues fmter x := by
    intro x
    rw [appendValues_eq, appendValues_eq, if_pos hm, if_pos (show
      ({ q with where_ := { filters := fs } } : InsertQuery).hasMultiTables = false from hm)]
  have hT : ∀ x, ({ q with where_ := { filters := fs } } : InsertQuery).appendInsertTable fmter x
      = q.appendInsertTable fmter x := fun _ => rfl
  unfold InsertQuery.AppendQuery
  simp only [hV, hT]

/-- C19 at `Table("t")` with a filter whose placeholder has no argument: the filter is
not rendered and its failure does not surface. -/
theorem C19_filters_ignored_single_table_witness :
    ({ (NewInsertQuery plainDB).Table ["t"] with
        where_ := { filters := [SafeQueryWithSep "id > ?" [] " AND "] } }
      : InsertQuery).AppendQuery plainFormatter ""
      = (some "INSERT INTO t VALUES", none) ∧
    firstFailure plainFormatter [SafeQuery "id > ?" []]
      = some (GoError.foreign "too few arguments") :=
  ⟨(C19_filters_ignored_single_table ((NewInsertQuery plainDB).Table ["t"]) plainFormatter ""
      [SafeQueryWithSep "id > ?" [] " AND "] (by decide)).trans (by decide),
   by decide⟩

/-- C20, append-only rendering: a successful `AppendQuery` returns the input buffer,
followed by `INSERT INTO `, followed by the rest of the statement; `appendInsertTable`
and `appendValues` also return the buffer they were given, extended. -/
theorem C20_append_only (q : InsertQuery) (fmter : Formatter) (b : Bytes)
    (h : (q.AppendQuery fmter b).2 = none) :
    (∃ rest : Bytes, q.AppendQuery fmter b = (some (b ++ "INSERT INTO " ++ rest), none)) ∧
    (∀ x : Bytes, (q.appendInsertTable fmter x).2 = none →
      ∃ rest : Bytes, q.appendInsertTable fmter x = (some (x ++ rest), none)) ∧
    (∀ x : Bytes, (q.appendValues fmter x).2 = none →
      ∃ rest : Bytes, q.appendValues fmter x = (some (x ++ rest), none)) := by
  refine ⟨?_, ?_, ?_⟩
  · refine ⟨q.targetText fmter ++ columnClause q.getFields.1 ++ q.valuesClause fmter
      ++ settingsClause fmter q.settings, ?_⟩
    rw [AppendQuery_closed q fmter b h]
    simp only [String.append_assoc]
  · intro x hx
    obtain ⟨t, ht⟩ := appendInsertTable_some q fmter x hx
    rw [appendInsertTable_shift] at ht
    cases hy : (q.appendInsertTable fmter "").1 with
    | none => rw [hy] at ht; simp at ht
    | some y =>
      rw [hy] at ht
      simp only [Option.map_some', Prod.mk.injEq, Option.some.injEq] at ht
      exact ⟨y, by rw [appendInsertTable_shift, hy, ht.2]; rfl⟩
  · intro x hx
    exact ⟨_, appendValues_closed q fmter x hx⟩

/-- C20 at `Table("t")` rendered into a buffer that already holds text. -/
theorem C20_append_only_witness :
    ∃ rest : Bytes,
      ((NewInsertQuery plainDB).Table ["t"]).AppendQuery plainFormatter "EXPLAIN "
        = (some ("EXPLAIN " ++ "INSERT INTO " ++ rest), none) :=
  (C20_append_only ((NewInsertQuery plainDB).Table ["t"]) plainFormatter "EXPLAIN "
    (by decide)).1

end Ch
